import Mathlib

/-!
Verification development for the CarWatchdog performance-stats dump parser
and its proto bridge (`tools/watchdog/parser/carwatchdog_dump_parser.py` and
`tools/watchdog/parser/perf_stats_proto_utils.py`).

The Python code is shallowly embedded:
* Python `int` values are `Int`, Python `str` values are `List Char` (with
  `String` wrappers at the outermost interface).
* Python `float` values are modelled as exact rationals (`ℚ`).  Every float
  that the parser produces comes from `float()` applied to a short decimal
  literal, and every claim compares such values for equality, so the exact
  rational model is adequate; binary rounding of IEEE doubles is not modelled.
* Fallible Python code (statements that can raise) is embedded in
  `Except PyErr`; each `PyErr` constructor names the Python exception class.
* The hand-rolled `while` loops over a shared line index are embedded as
  fuel-indexed recursive functions; the fuel (always instantiated with
  `lines.length + 1`, an upper bound on the number of iterations, since every
  iteration advances the index by at least one) only cuts infinite regress
  and is never exhausted on the inputs appearing in the theorems below, which
  is visible in the `Except.ok`/specific-error results they establish.
* The regular expressions of the source are embedded as dedicated matching
  functions that implement `re.fullmatch` with Python's backtracking
  preference order (greedy quantifiers try longest first, earlier choice
  points take precedence).  Each matcher documents the pattern it implements.
-/

set_option maxRecDepth 10000

/-- Python exception classes that the embedded code can raise.
`fuelOut` is not a Python exception: it is the artificial result used when a
fuel-indexed loop runs out of fuel, which cannot happen when the fuel is at
least `lines.length + 1 - idx` (each loop iteration advances `idx`). -/
inductive PyErr where
  | valueError
  | indexError
  | attributeError
  | nameError
  | typeError
  | fuelOut
deriving DecidableEq, Repr

/-- Characters treated as whitespace by Python's `str.strip` / `str.rstrip`
and by the regex class `\s` (restricted to the ASCII whitespace that can
occur in a dump line; lines never contain `\n` because the dump is split on
it). -/
def isPyWs (c : Char) : Bool :=
  c = ' ' || c = '\t' || c = '\n' || c = '\r' || c = '\x0b' || c = '\x0c'

/-- Python `str.rstrip()` on a line represented as a character list. -/
def pyRstrip (l : List Char) : List Char :=
  (l.reverse.dropWhile isPyWs).reverse

/-- Python `str.strip()` on a line represented as a character list. -/
def pyStrip (l : List Char) : List Char :=
  (pyRstrip l).dropWhile isPyWs

/-- Numeric value of a decimal digit string. -/
def digitsVal (l : List Char) : Nat :=
  l.foldl (fun acc c => 10 * acc + (c.toNat - '0'.toNat)) 0

/-- Python `int()` on a string matched by `\d+` (always a plain decimal). -/
def pyInt (l : List Char) : Int :=
  (digitsVal l : Int)

/-- Exact rational value of the decimal literal `ip ++ "." ++ fp`. -/
def ratOfParts (ip fp : List Char) : ℚ :=
  mkRat (digitsVal ip * 10 ^ fp.length + digitsVal fp) (10 ^ fp.length)

/-- Python `float()` restricted to the strings the parser can feed it:
a run of digits, or digits-dot-digits.  Any other shape (which can only
arise from the unescaped `.` inside the `\d+.\d+` percent groups of the
process/storage patterns) is treated as a `ValueError`, matching `float()`
on such captures except for exotic forms such as `1e2` that cannot occur in
a dump. -/
def pyFloat (l : List Char) : Except PyErr ℚ :=
  let (d, r) := l.span (·.isDigit)
  if d.isEmpty then .error .valueError
  else
    match r with
    | [] => .ok (digitsVal d : ℚ)
    | '.' :: r2 =>
        let (d2, r3) := r2.span (·.isDigit)
        if d2.isEmpty || !r3.isEmpty then .error .valueError
        else .ok (ratOfParts d d2)
    | _ => .error .valueError

/-- In-memory model of Python `datetime.datetime` values (the parser only
ever constructs naive datetimes from a dump timestamp or proto fields). -/
structure PyDateTime where
  year : Int
  month : Int
  day : Int
  hour : Int
  minute : Int
  second : Int
deriving DecidableEq, Repr

/-- Number of days in a month, with the Gregorian leap rule, as enforced by
the `datetime.datetime` constructor. -/
def monthLength (year month : Int) : Int :=
  if month = 2 then
    if year % 4 = 0 && (year % 100 ≠ 0 || year % 400 = 0) then 29 else 28
  else if month = 4 || month = 6 || month = 9 || month = 11 then 30
  else 31

/-- The `datetime.datetime(year, month, day, hour, minute, second)`
constructor: raises `ValueError` when a component is out of range. -/
def pyDatetime (year month day hour minute second : Int) :
    Except PyErr PyDateTime :=
  if 1 ≤ year ∧ year ≤ 9999 ∧ 1 ≤ month ∧ month ≤ 12 ∧
      1 ≤ day ∧ day ≤ monthLength year month ∧
      0 ≤ hour ∧ hour ≤ 23 ∧ 0 ≤ minute ∧ minute ≤ 59 ∧
      0 ≤ second ∧ second ≤ 59 then
    .ok ⟨year, month, day, hour, minute, second⟩
  else .error .valueError

/-- Lower-cased copy of a word, for the case-insensitive matching that
`datetime.strptime` performs on weekday/month/zone names. -/
def lowerWord (l : List Char) : List Char :=
  l.map Char.toLower

/-- Abbreviated weekday names accepted by `%a` (C locale). -/
def weekdayAbbrs : List (List Char) :=
  [['m','o','n'], ['t','u','e'], ['w','e','d'], ['t','h','u'],
   ['f','r','i'], ['s','a','t'], ['s','u','n']]

/-- Abbreviated month names accepted by `%b` (C locale), in month order. -/
def monthAbbrs : List (List Char) :=
  [['j','a','n'], ['f','e','b'], ['m','a','r'], ['a','p','r'],
   ['m','a','y'], ['j','u','n'], ['j','u','l'], ['a','u','g'],
   ['s','e','p'], ['o','c','t'], ['n','o','v'], ['d','e','c']]

/-- Splits off the next whitespace-free word together with its index in the
given dictionary (case-insensitively), as `strptime` does for `%a`/`%b`/`%Z`
directives. -/
def takeWord (dict : List (List Char)) (l : List Char) :
    Option (Nat × List Char) :=
  let (w, r) := l.span (fun c => !isPyWs c)
  match dict.indexOf? (lowerWord w) with
  | some i => some (i, r)
  | none => none

/-- Consumes the `\s+` that separates two `strptime` directives. -/
def takeSpaces (l : List Char) : Option (List Char) :=
  let (s, r) := l.span isPyWs
  if s.isEmpty then none else some r

/-- Splits off a run of digits of length between 1 and `maxLen`, returning
its value; fails when the run is empty or longer than `maxLen` (a longer run
would leave a digit where the format expects a separator, so the overall
`strptime` match fails, exactly as here). -/
def takeNum (maxLen : Nat) (l : List Char) : Option (Nat × List Char) :=
  let (d, r) := l.span (·.isDigit)
  if d.isEmpty || maxLen < d.length then none else some (digitsVal d, r)

/-- `datetime.datetime.strptime(s, "%a %b %d %H:%M:%S %Y %Z")`, the
`DUMP_DATETIME_FORMAT` of the source.  Returns `ValueError` when the text
does not match the format (the weekday is validated against the name table
but otherwise discarded, as in `strptime`).  `%Z` is modelled as accepting
`UTC`/`GMT` (the host-timezone names that CPython additionally accepts are
not modelled).  Seconds `60`/`61` pass the `%S` pattern but are rejected by
the `datetime` constructor, so they yield `ValueError` either way and the
net behaviour is the one modelled here. -/
def strptimeDump (l : List Char) : Except PyErr PyDateTime := do
  let some (_, r) := takeWord weekdayAbbrs l | .error .valueError
  let some r := takeSpaces r | .error .valueError
  let some (mi, r) := takeWord monthAbbrs r | .error .valueError
  let some r := takeSpaces r | .error .valueError
  let some (day, r) := takeNum 2 r | .error .valueError
  if day = 0 || 31 < day then .error .valueError else
  let some r := takeSpaces r | .error .valueError
  let some (hour, r) := takeNum 2 r | .error .valueError
  if 23 < hour then .error .valueError else
  let ':' :: r := r | .error .valueError
  let some (minute, r) := takeNum 2 r | .error .valueError
  if 59 < minute then .error .valueError else
  let ':' :: r := r | .error .valueError
  let some (second, r) := takeNum 2 r | .error .valueError
  let some r := takeSpaces r | .error .valueError
  let (yd, r) := r.span (·.isDigit)
  if yd.length ≠ 4 then .error .valueError else
  let some r := takeSpaces r | .error .valueError
  let some (_, r) := takeWord [['u','t','c'], ['g','m','t']] r
    | .error .valueError
  if !r.isEmpty then .error .valueError else
  pyDatetime (digitsVal yd) (mi + 1) day hour minute second

/-- Drops the literal prefix `lit` from `l`, when present. -/
def dropLit (lit : List Char) (l : List Char) : Option (List Char) :=
  if lit.isPrefixOf l then some (l.drop lit.length) else none

/-- The separator `", "` that the package/process/storage patterns use
between captured groups, as a character list. -/
def commaSp : List Char :=
  [',', ' ']

/-- The line of 50 dashes used as section terminator
(`COLLECTION_END_LINE_MIN_LEN = 50`). -/
def dashes50 : List Char :=
  List.replicate 50 '-'

/-- `re.fullmatch(BOOT_TIME_REPORT_HEADER_PATTERN, line)`:
`Boot-time (?:performance|collection) report:` is a pair of literals. -/
def bootTimeHeaderMatch (l : List Char) : Bool :=
  l = "Boot-time performance report:".data ||
  l = "Boot-time collection report:".data

/-- `re.fullmatch(TOP_N_STORAGE_IO_READS_HEADER_PATTERN, line)`:
`Top N (?:Storage I/O )?Reads:`. -/
def topNReadsMatch (l : List Char) : Bool :=
  l = "Top N Reads:".data || l = "Top N Storage I/O Reads:".data

/-- `re.fullmatch(TOP_N_STORAGE_IO_WRITES_HEADER_PATTERN, line)`:
`Top N (?:Storage I/O )?Writes:`. -/
def topNWritesMatch (l : List Char) : Bool :=
  l = "Top N Writes:".data || l = "Top N Storage I/O Writes:".data

/-- `re.fullmatch(STATS_COLLECTION_PATTERN, line)` with
`Collection (?P<id>\d+): <(?P<date>.+)>`.  Returns the `id` digit span and
the `date` span.  The greedy `\d+` is forced (a shorter digit run would be
followed by a digit, not by `:`), and the greedy `.+` followed by `>` at the
end of the pattern captures everything up to the final `>`. -/
def statsCollectionMatch (l : List Char) : Option (List Char × List Char) :=
  match dropLit "Collection ".data l with
  | none => none
  | some r =>
    let (d, r2) := r.span (·.isDigit)
    if d.isEmpty then none else
    match dropLit ": <".data r2 with
    | none => none
    | some r3 =>
      match r3.reverse with
      | '>' :: revDate =>
          if revDate.isEmpty || revDate.contains '\n' then none
          else some (d, revDate.reverse)
      | _ => none

/-- Requires `l` to be a nonempty run of digits reaching the end of the
line, returning it (the final `(?P<g>\d+)` of the counter patterns). -/
def digitsToEnd (l : List Char) : Option (List Char) :=
  let (d, r) := l.span (·.isDigit)
  if d.isEmpty || !r.isEmpty then none else some d

/-- `(?P<g>\d+) / .+` — a digit run, the literal ` / `, and at least one
more character. -/
def digitsSlashAny (l : List Char) : Option (List Char) :=
  let (d, r) := l.span (·.isDigit)
  if d.isEmpty then none else
  match dropLit " / ".data r with
  | some rest => if rest.isEmpty || rest.contains '\n' then none else some d
  | none => none

/-- `re.fullmatch(TOTAL_CPU_TIME_PATTERN, line)`.  In the raw string
`r"Total CPU time \\(ms\\): (?P<totalCpuTimeMs>\d+)"` the doubled
backslashes are regex escapes for a literal backslash, and `(ms\\)` lexes
as a plain group around `ms\`, so the pattern matches the literal text
`Total CPU time \ms\: ` followed by digits — not the dump text
`Total CPU time (ms): `. -/
def totalCpuTimeMatch (l : List Char) : Option (List Char) :=
  match dropLit "Total CPU time \\ms\\: ".data l with
  | some r => digitsToEnd r
  | none => none

/-- `re.fullmatch(TOTAL_CPU_CYCLES_PATTERN, line)`:
`Total CPU cycles: (?P<totalCpuCycles>\d+)`. -/
def totalCpuCyclesMatch (l : List Char) : Option (List Char) :=
  match dropLit "Total CPU cycles: ".data l with
  | some r => digitsToEnd r
  | none => none

/-- `re.fullmatch(TOTAL_IDLE_CPU_TIME_PATTERN, line)`.  As with
`TOTAL_CPU_TIME_PATTERN`, the doubled backslashes make the pattern match
`Total idle CPU time \ms\/percent: ` literally. -/
def totalIdleCpuTimeMatch (l : List Char) : Option (List Char) :=
  match dropLit "Total idle CPU time \\ms\\/percent: ".data l with
  | some r => digitsSlashAny r
  | none => none

/-- `re.fullmatch(CPU_IO_WAIT_TIME_PATTERN, line)` with
`CPU I/O wait time(?: \\(ms\\))?/percent: (?P<iowaitCpuTimeMs>\d+) / .+`:
the optional group matches the literal ` \ms\` (doubled backslashes again),
tried before its absence (greedy `?`); both branches continue with
`/percent: `. -/
def cpuIoWaitTimeMatch (l : List Char) : Option (List Char) :=
  match dropLit "CPU I/O wait time".data l with
  | none => none
  | some r =>
    let rest :=
      match dropLit " \\ms\\".data r with
      | some r2 => r2
      | none => r
    match dropLit "/percent: ".data rest with
    | some r3 => digitsSlashAny r3
    | none => none

/-- `re.fullmatch(CONTEXT_SWITCHES_PATTERN, line)`:
`Number of context switches: (?P<totalCtxtSwitches>\d+)`. -/
def contextSwitchesMatch (l : List Char) : Option (List Char) :=
  match dropLit "Number of context switches: ".data l with
  | some r => digitsToEnd r
  | none => none

/-- `re.fullmatch(IO_BLOCKED_PROCESSES_PATTERN, line)`:
`Number of I/O blocked processes/percent: (?P<totalIoBlkProc>\d+) / .+`. -/
def ioBlockedProcessesMatch (l : List Char) : Option (List Char) :=
  match dropLit "Number of I/O blocked processes/percent: ".data l with
  | some r => digitsSlashAny r
  | none => none

/-- `re.fullmatch(MAJOR_PAGE_FAULTS_PATTERN, line)`:
`Number of major page faults since last collection: (?P<totalMajPgFaults>\d+)`. -/
def majorPageFaultsMatch (l : List Char) : Option (List Char) :=
  match dropLit "Number of major page faults since last collection: ".data l with
  | some r => digitsToEnd r
  | none => none

/-- `_is_stats_section_end(line)` from the source: a line starting with
`Top N`, a full `STATS_COLLECTION_PATTERN` match, or a line starting with
50 dashes. -/
def isStatsSectionEnd (l : List Char) : Bool :=
  "Top N".data.isPrefixOf l || (statsCollectionMatch l).isSome ||
  dashes50.isPrefixOf l

/-- Greedy split for a `(?P<g>.+)` group followed by a deterministic tail
pattern `tm` that must reach the end of the line: Python's backtracking
tries the longest group first, i.e. the split with the longest possible
prefix whose suffix satisfies `tm`.  Returns that prefix and the tail
match. -/
def bestSplit {β : Type} (tm : List Char → Option β) :
    List Char → Option (List Char × β)
  | [] => none
  | c :: rest =>
    match bestSplit tm rest with
    | some (n, b) => some (c :: n, b)
    | none =>
      match tm rest with
      | some b => some ([c], b)
      | none => none

/-- The escaped percent group `(?P<g>\d+\.\d+)%` of
`PACKAGE_CPU_STATS_PATTERN`: digits, a literal dot, digits, then `%`.
Returns the group span and the rest after `%`.  Deterministic: a shorter
first digit run would be followed by a digit, not by `.`. -/
def pctDotted (l : List Char) : Option (List Char × List Char) :=
  let (ip, r) := l.span (·.isDigit)
  if ip.isEmpty then none else
  match r with
  | '.' :: r2 =>
    let (fp, r3) := r2.span (·.isDigit)
    if fp.isEmpty then none else
    match r3 with
    | '%' :: r4 => some (ip ++ '.' :: fp, r4)
    | _ => none
  | _ => none

/-- The unescaped percent group `(?P<g>\d+.\d+)%` of the process and
storage patterns, where `.` matches any character.  Python's preference
order: the first `\d+` takes the longest digit run `d`; the `.` then takes
the next character `c`; the second `\d+` takes the following digit run,
which must be nonempty and followed by `%`.  If that fails, backtracking
shortens the first run so that `.` consumes a digit of `d`, which succeeds
exactly when `d` has length at least 3 and is directly followed by `%`
(the group then spans just `d`). -/
def pctAny (l : List Char) : Option (List Char × List Char) :=
  let (d, r) := l.span (·.isDigit)
  if d.isEmpty then none else
  match r with
  | [] => none
  | c :: r2 =>
    let (d2, r3) := r2.span (·.isDigit)
    match r3 with
    | '%' :: r4 =>
        if !d2.isEmpty then some (d ++ c :: d2, r4)
        else if c = '%' ∧ 3 ≤ d.length then some (d, r2)
        else none
    | _ =>
        if c = '%' ∧ 3 ≤ d.length then some (d, r2)
        else none

/-- `ProcessCpuStats` record of the parser module. -/
structure ProcessCpuStats where
  command : List Char
  cpu_time_ms : Int
  package_cpu_time_percent : ℚ
  cpu_cycles : Int
deriving DecidableEq, Repr

/-- `PackageCpuStats` record of the parser module (`process_cpu_stats`
starts empty and is appended to by the CPU-stats sub-parser). -/
structure PackageCpuStats where
  user_id : Int
  package_name : List Char
  cpu_time_ms : Int
  total_cpu_time_percent : ℚ
  cpu_cycles : Int
  process_cpu_stats : List ProcessCpuStats := []
deriving DecidableEq, Repr

/-- `PackageStorageIoStats` record of the parser module. -/
structure PackageStorageIoStats where
  user_id : Int
  package_name : List Char
  fg_bytes : Int
  fg_bytes_percent : ℚ
  fg_fsync : Int
  fg_fsync_percent : ℚ
  bg_bytes : Int
  bg_bytes_percent : ℚ
  bg_fsync : Int
  bg_fsync_percent : ℚ
deriving DecidableEq, Repr

/-- `StatsCollection` record with the defaults of its `__init__`.
`total_cycles` is not set by `__init__`: it models the attribute that the
assignment `collection.total_cycles = int(...)` in `_parse_collection`
adds dynamically (note: not the `total_cpu_cycles` field). -/
structure StatsCollection where
  id : Int := -1
  date : Option PyDateTime := none
  total_cpu_time_ms : Int := 0
  total_cpu_cycles : Int := 0
  idle_cpu_time_ms : Int := 0
  io_wait_time_ms : Int := 0
  context_switches : Int := 0
  io_blocked_processes : Int := 0
  major_page_faults : Int := 0
  package_cpu_stats : List PackageCpuStats := []
  package_storage_io_read_stats : List PackageStorageIoStats := []
  package_storage_io_write_stats : List PackageStorageIoStats := []
  total_cycles : Option Int := none
deriving DecidableEq, Repr

/-- `StatsCollection.is_empty` from the source: it sums the seven counters
into `val` and tests `val == 0`, it does not test each counter separately.
A `datetime` object is always truthy, so `not self.date` is `date = none`. -/
def StatsCollection.is_empty (c : StatsCollection) : Bool :=
  let val := c.total_cpu_time_ms + c.total_cpu_cycles + c.idle_cpu_time_ms +
    c.io_wait_time_ms + c.context_switches + c.io_blocked_processes +
    c.major_page_faults
  c.id = -1 && c.date = none && val = 0 && c.package_cpu_stats.isEmpty &&
    c.package_storage_io_read_stats.isEmpty &&
    c.package_storage_io_write_stats.isEmpty

/-- `SystemEventStats`: an ordered list of collections. -/
structure SystemEventStats where
  collections : List StatsCollection := []
deriving DecidableEq, Repr

/-- `SystemEventStats.add`. -/
def SystemEventStats.add (s : SystemEventStats) (c : StatsCollection) :
    SystemEventStats :=
  { s with collections := s.collections ++ [c] }

/-- `SystemEventStats.is_empty`:
`not any(map(lambda c: not c.is_empty(), self.collections))`. -/
def SystemEventStats.is_empty (s : SystemEventStats) : Bool :=
  s.collections.all StatsCollection.is_empty

/-- The value stored in `PerformanceStats._custom_collection_stats`.  The
source stores `None` initially, but `set_custom_collection_stats` stores
`stats.collections` — a plain Python `list`, not a `SystemEventStats` —
while `_get_perf_stats` never touches the underscore field.  The embedding
therefore needs the dynamic type of this attribute. -/
inductive CustomStats where
  | nil
  | stats (s : SystemEventStats)
  | collections (l : List StatsCollection)
deriving DecidableEq, Repr

/-- `PerformanceStats` with the `__init__` defaults on the underscore
fields.  `boot_time_stats`, `last_n_minutes_stats` and
`custom_collection_stats` (no leading underscore) model the attributes that
`_get_perf_stats` in `perf_stats_proto_utils.py` adds dynamically; they are
never read by any method of the class. -/
structure PerformanceStats where
  boot_time_stats_ : Option SystemEventStats := none
  last_n_minutes_stats_ : Option SystemEventStats := none
  user_switch_stats_ : List SystemEventStats := []
  custom_collection_stats_ : CustomStats := .nil
  boot_time_stats : Option (Option SystemEventStats) := none
  last_n_minutes_stats : Option (Option SystemEventStats) := none
  custom_collection_stats : Option (Option SystemEventStats) := none
deriving DecidableEq, Repr

/-- `_has_boot_time_stats`: `self._boot_time_stats and not
self._boot_time_stats.is_empty()` (a `SystemEventStats` object is always
truthy). -/
def PerformanceStats.has_boot_time_stats (p : PerformanceStats) : Bool :=
  match p.boot_time_stats_ with
  | some s => !s.is_empty
  | none => false

/-- `_has_last_n_minutes_stats`. -/
def PerformanceStats.has_last_n_minutes_stats (p : PerformanceStats) : Bool :=
  match p.last_n_minutes_stats_ with
  | some s => !s.is_empty
  | none => false

/-- `_has_custom_collection_stats`: when the underscore field holds the
plain list stored by `set_custom_collection_stats`, a nonempty list is
truthy and `.is_empty()` is then called on it, raising `AttributeError`
(`list` has no such method); an empty list is falsy and short-circuits. -/
def PerformanceStats.has_custom_collection_stats (p : PerformanceStats) :
    Except PyErr Bool :=
  match p.custom_collection_stats_ with
  | .nil => .ok false
  | .stats s => .ok (!s.is_empty)
  | .collections [] => .ok false
  | .collections (_ :: _) => .error .attributeError

/-- `set_boot_time_stats`. -/
def PerformanceStats.set_boot_time_stats (p : PerformanceStats)
    (stats : SystemEventStats) : PerformanceStats :=
  { p with boot_time_stats_ := some stats }

/-- `set_last_n_minutes_stats`. -/
def PerformanceStats.set_last_n_minutes_stats (p : PerformanceStats)
    (stats : SystemEventStats) : PerformanceStats :=
  { p with last_n_minutes_stats_ := some stats }

/-- `set_custom_collection_stats`: stores `stats.collections`, the plain
list, rather than `stats`. -/
def PerformanceStats.set_custom_collection_stats (p : PerformanceStats)
    (stats : SystemEventStats) : PerformanceStats :=
  { p with custom_collection_stats_ := .collections stats.collections }

/-- `get_boot_time_stats`. -/
def PerformanceStats.get_boot_time_stats (p : PerformanceStats) :
    Option SystemEventStats :=
  if p.has_boot_time_stats then p.boot_time_stats_ else none

/-- `get_last_n_minutes_stats`. -/
def PerformanceStats.get_last_n_minutes_stats (p : PerformanceStats) :
    Option SystemEventStats :=
  if p.has_last_n_minutes_stats then p.last_n_minutes_stats_ else none

/-- `get_custom_collection_stats`: propagates the `AttributeError` of
`_has_custom_collection_stats`; when the guard is truthy the stored value
is necessarily the `SystemEventStats` case. -/
def PerformanceStats.get_custom_collection_stats (p : PerformanceStats) :
    Except PyErr (Option SystemEventStats) := do
  if ← p.has_custom_collection_stats then
    match p.custom_collection_stats_ with
    | .stats s => .ok (some s)
    | _ => .ok none
  else .ok none

/-- `PerformanceStats.is_empty`: the conjunction short-circuits, so the
custom-collection guard (which can raise) is only evaluated when neither
boot-time nor last-n-minutes stats are present-and-non-empty. -/
def PerformanceStats.is_empty (p : PerformanceStats) : Except PyErr Bool :=
  if p.has_boot_time_stats then .ok false
  else if p.has_last_n_minutes_stats then .ok false
  else do
    let hc ← p.has_custom_collection_stats
    if hc then .ok false
    else .ok (p.user_switch_stats_.all SystemEventStats.is_empty)

/-- Zero-padded decimal rendering used by `strftime`. -/
def padNum (width : Nat) (v : Int) : List Char :=
  let ds := Nat.toDigits 10 v.toNat
  List.replicate (width - ds.length) '0' ++ ds

/-- `date.strftime(DATETIME_FORMAT)` with `DATETIME_FORMAT` =
`"%Y-%m-%d %H:%M:%S"`. -/
def strftimeDT (d : PyDateTime) : List Char :=
  padNum 4 d.year ++ '-' :: padNum 2 d.month ++ '-' :: padNum 2 d.day ++
    ' ' :: padNum 2 d.hour ++ ':' :: padNum 2 d.minute ++
    ':' :: padNum 2 d.second

/-- Dictionary projection of a `StatsCollection`
(`StatsCollection.to_dict`).  The dictionaries of the package CPU and
storage-I/O entries list exactly the fields of the records
(`PackageCpuStats.to_dict` / `vars(p)` / `PackageStorageIoStats.to_dict`),
so the record types themselves serve as their dictionary equivalents. -/
structure StatsCollectionDict where
  id : Int
  date : List Char
  total_cpu_time_ms : Int
  total_cpu_cycles : Int
  idle_cpu_time_ms : Int
  io_wait_time_ms : Int
  context_switches : Int
  io_blocked_processes : Int
  major_page_faults : Int
  package_cpu_stats : List PackageCpuStats
  package_storage_io_read_stats : List PackageStorageIoStats
  package_storage_io_write_stats : List PackageStorageIoStats
deriving DecidableEq, Repr

/-- `StatsCollection.to_dict`: the date renders through `strftime` when
present and as `""` otherwise. -/
def StatsCollection.to_dict (c : StatsCollection) : StatsCollectionDict :=
  { id := c.id
    date := match c.date with
      | some d => strftimeDT d
      | none => []
    total_cpu_time_ms := c.total_cpu_time_ms
    total_cpu_cycles := c.total_cpu_cycles
    idle_cpu_time_ms := c.idle_cpu_time_ms
    io_wait_time_ms := c.io_wait_time_ms
    context_switches := c.context_switches
    io_blocked_processes := c.io_blocked_processes
    major_page_faults := c.major_page_faults
    package_cpu_stats := c.package_cpu_stats
    package_storage_io_read_stats := c.package_storage_io_read_stats
    package_storage_io_write_stats := c.package_storage_io_write_stats }

/-- `SystemEventStats.to_list`. -/
def SystemEventStats.to_list (s : SystemEventStats) :
    List StatsCollectionDict :=
  s.collections.map StatsCollection.to_dict

/-- Dictionary projection of a `PerformanceStats`. -/
structure PerformanceStatsDict where
  boot_time_stats : Option (List StatsCollectionDict)
  last_n_minutes_stats : Option (List StatsCollectionDict)
  user_switch_stats : List (List StatsCollectionDict)
  custom_collection_stats : Option (List StatsCollectionDict)
deriving DecidableEq, Repr

/-- `PerformanceStats.to_dict`: every entry of the dict literal is
evaluated, so `self._custom_collection_stats.to_list()` raises
`AttributeError` whenever the underscore field holds a (truthy) nonempty
plain list. -/
def PerformanceStats.to_dict (p : PerformanceStats) :
    Except PyErr PerformanceStatsDict := do
  let custom ← match p.custom_collection_stats_ with
    | .nil => pure none
    | .stats s => pure (some s.to_list)
    | .collections [] => pure none
    | .collections (_ :: _) => .error PyErr.attributeError
  .ok { boot_time_stats := p.boot_time_stats_.map SystemEventStats.to_list
        last_n_minutes_stats :=
          p.last_n_minutes_stats_.map SystemEventStats.to_list
        user_switch_stats :=
          p.user_switch_stats_.map SystemEventStats.to_list
        custom_collection_stats := custom }

/-- Captured groups of `PACKAGE_CPU_STATS_PATTERN`:
`(?P<userId>\d+), (?P<packageName>.+), (?P<cpuTimeMs>\d+),
 (?P<cpuTimePercent>\d+\.\d+)%(, (?P<cpuCycles>\d+))?`. -/
structure PkgCpuMatch where
  userId : List Char
  packageName : List Char
  cpuTimeMs : List Char
  cpuTimePercent : List Char
  cpuCycles : Option (List Char)
deriving DecidableEq, Repr

/-- The part of `PACKAGE_CPU_STATS_PATTERN` after the `packageName` group,
anchored at the end of the line.  Deterministic: each `\d+` is followed by
a non-digit in the pattern, and the optional cycles group must consume the
whole remaining line, so its presence is forced by the text. -/
def tailPkgCpu (l : List Char) : Option PkgCpuMatch :=
  match dropLit commaSp l with
  | none => none
  | some r =>
    let (t, r2) := r.span (·.isDigit)
    if t.isEmpty then none else
    match dropLit commaSp r2 with
    | none => none
    | some r3 =>
      match pctDotted r3 with
      | none => none
      | some (pctSpan, r4) =>
        match r4 with
        | [] => some ⟨[], [], t, pctSpan, none⟩
        | _ =>
          match dropLit commaSp r4 with
          | none => none
          | some r5 =>
            match digitsToEnd r5 with
            | some cy => some ⟨[], [], t, pctSpan, some cy⟩
            | none => none

/-- `re.fullmatch(PACKAGE_CPU_STATS_PATTERN, line)`.  The leading `\d+` is
forced to the maximal digit run; the greedy `.+` of `packageName` is the
longest prefix whose suffix completes the pattern (`bestSplit`). -/
def packageCpuMatch (l : List Char) : Option PkgCpuMatch :=
  let (u, r) := l.span (·.isDigit)
  if u.isEmpty then none else
  match dropLit commaSp r with
  | none => none
  | some r2 =>
    match bestSplit tailPkgCpu r2 with
    | some (name, m) => some { m with userId := u, packageName := name }
    | none => none

/-- Captured groups of `PROCESS_CPU_STATS_PATTERN`:
`\s+(?P<command>.+), (?P<cpuTimeMs>\d+), (?P<uidCpuPercent>\d+.\d+)%`
`(, (?P<cpuCycles>\d+))?` (note the unescaped `.` in the percent group). -/
structure ProcCpuMatch where
  command : List Char
  cpuTimeMs : List Char
  uidCpuPercent : List Char
  cpuCycles : Option (List Char)
deriving DecidableEq, Repr

/-- The part of `PROCESS_CPU_STATS_PATTERN` after the `command` group. -/
def tailProcCpu (l : List Char) : Option ProcCpuMatch :=
  match dropLit commaSp l with
  | none => none
  | some r =>
    let (t, r2) := r.span (·.isDigit)
    if t.isEmpty then none else
    match dropLit commaSp r2 with
    | none => none
    | some r3 =>
      match pctAny r3 with
      | none => none
      | some (pctSpan, r4) =>
        match r4 with
        | [] => some ⟨[], t, pctSpan, none⟩
        | _ =>
          match dropLit commaSp r4 with
          | none => none
          | some r5 =>
            match digitsToEnd r5 with
            | some cy => some ⟨[], t, pctSpan, some cy⟩
            | none => none

/-- Backtracking between a greedy `\s+` and a following `(?P<g>.+)`:
the longest whitespace run is tried first; on failure the trailing
whitespace characters move one by one into the `.+` group (at least one
whitespace character must remain).  `revWs` is the not-yet-surrendered
whitespace, reversed. -/
def wsTry {β : Type} (tm : List Char → Option β) :
    List Char → List Char → Option (List Char × β)
  | [], r =>
    match bestSplit tm r with
    | some nb => some nb
    | none => none
  | c :: revRest, r =>
    match bestSplit tm r with
    | some nb => some nb
    | none => if revRest.isEmpty then none else wsTry tm revRest (c :: r)

/-- `re.fullmatch(PROCESS_CPU_STATS_PATTERN, line)`. -/
def processCpuMatch (l : List Char) : Option ProcCpuMatch :=
  let (ws, r) := l.span isPyWs
  if ws.isEmpty then none else
  match wsTry tailProcCpu ws.reverse r with
  | some (cmd, m) => some { m with command := cmd }
  | none => none

/-- Captured groups of `PACKAGE_STORAGE_IO_STATS_PATTERN` (ten groups; the
percent groups use the unescaped `\d+.\d+`). -/
structure StorageIoMatch where
  userId : List Char
  packageName : List Char
  fgBytes : List Char
  fgBytesPercent : List Char
  fgFsync : List Char
  fgFsyncPercent : List Char
  bgBytes : List Char
  bgBytesPercent : List Char
  bgFsync : List Char
  bgFsyncPercent : List Char
deriving DecidableEq, Repr

/-- The part of `PACKAGE_STORAGE_IO_STATS_PATTERN` after the `packageName`
group, anchored at the end of the line. -/
def tailStorageIo (l : List Char) : Option StorageIoMatch := do
  let r ← dropLit commaSp l
  let (fgB, r) := r.span (·.isDigit)
  if fgB.isEmpty then none else
  let r ← dropLit commaSp r
  let (fgBP, r) ← pctAny r
  let r ← dropLit commaSp r
  let (fgF, r2) := r.span (·.isDigit)
  if fgF.isEmpty then none else
  let r ← dropLit commaSp r2
  let (fgFP, r) ← pctAny r
  let r ← dropLit commaSp r
  let (bgB, r2) := r.span (·.isDigit)
  if bgB.isEmpty then none else
  let r ← dropLit commaSp r2
  let (bgBP, r) ← pctAny r
  let r ← dropLit commaSp r
  let (bgF, r2) := r.span (·.isDigit)
  if bgF.isEmpty then none else
  let r ← dropLit commaSp r2
  let (bgFP, r) ← pctAny r
  if !r.isEmpty then none else
  some ⟨[], [], fgB, fgBP, fgF, fgFP, bgB, bgBP, bgF, bgFP⟩

/-- `re.fullmatch(PACKAGE_STORAGE_IO_STATS_PATTERN, line)`. -/
def packageStorageIoMatch (l : List Char) : Option StorageIoMatch :=
  let (u, r) := l.span (·.isDigit)
  if u.isEmpty then none else
  match dropLit commaSp r with
  | none => none
  | some r2 =>
    match bestSplit tailStorageIo r2 with
    | some (name, m) => some { m with userId := u, packageName := name }
    | none => none

/-- `_parse_cpu_stats(lines, idx)`.  `acc` holds the packages whose parsing
is finished and `cur` the package currently receiving process lines (the
source appends the package object to the result list when it is created
and then mutates it in place; `acc ++ cur.toList` is that list).  Looks up
`lines[idx]` before testing the section end, so running past the last line
raises `IndexError` exactly as in Python.  `fuel` only bounds the loop
(iterations advance `idx`, so `lines.length + 1` is always enough). -/
def parseCpuStats (lines : List (List Char)) :
    Nat → Nat → List PackageCpuStats → Option PackageCpuStats →
    Except PyErr (List PackageCpuStats × Nat)
  | 0, _, _, _ => .error .fuelOut
  | fuel + 1, idx, acc, cur =>
    match lines[idx]? with
    | none => .error .indexError
    | some rawLine =>
      let line := pyRstrip rawLine
      if isStatsSectionEnd line then .ok (acc ++ cur.toList, idx)
      else
        match packageCpuMatch line with
        | some m => do
            let pct ← pyFloat m.cpuTimePercent
            let pkg : PackageCpuStats :=
              { user_id := pyInt m.userId
                package_name := m.packageName
                cpu_time_ms := pyInt m.cpuTimeMs
                total_cpu_time_percent := pct
                cpu_cycles :=
                  match m.cpuCycles with
                  | some cy => pyInt cy
                  | none => -1 }
            parseCpuStats lines fuel (idx + 1) (acc ++ cur.toList) (some pkg)
        | none =>
          match processCpuMatch line with
          | some m =>
            match cur with
            | some pkg => do
                let pct ← pyFloat m.uidCpuPercent
                let proc : ProcessCpuStats :=
                  { command := m.command
                    cpu_time_ms := pyInt m.cpuTimeMs
                    package_cpu_time_percent := pct
                    cpu_cycles :=
                      match m.cpuCycles with
                      | some cy => pyInt cy
                      | none => -1 }
                parseCpuStats lines fuel (idx + 1) acc
                  (some { pkg with
                    process_cpu_stats := pkg.process_cpu_stats ++ [proc] })
            | none =>
                -- "No package CPU stats parsed for process" warning on
                -- stderr; the line is dropped (the int/float conversions
                -- sit inside the skipped branch).
                parseCpuStats lines fuel (idx + 1) acc none
          | none => parseCpuStats lines fuel (idx + 1) acc cur

/-- `_parse_storage_io_stats(lines, idx)`. -/
def parseStorageIoStats (lines : List (List Char)) :
    Nat → Nat → List PackageStorageIoStats →
    Except PyErr (List PackageStorageIoStats × Nat)
  | 0, _, _ => .error .fuelOut
  | fuel + 1, idx, acc =>
    match lines[idx]? with
    | none => .error .indexError
    | some rawLine =>
      let line := pyRstrip rawLine
      if isStatsSectionEnd line then .ok (acc, idx)
      else
        match packageStorageIoMatch line with
        | some m => do
            let fgBP ← pyFloat m.fgBytesPercent
            let fgFP ← pyFloat m.fgFsyncPercent
            let bgBP ← pyFloat m.bgBytesPercent
            let bgFP ← pyFloat m.bgFsyncPercent
            let st : PackageStorageIoStats :=
              { user_id := pyInt m.userId
                package_name := m.packageName
                fg_bytes := pyInt m.fgBytes
                fg_bytes_percent := fgBP
                fg_fsync := pyInt m.fgFsync
                fg_fsync_percent := fgFP
                bg_bytes := pyInt m.bgBytes
                bg_bytes_percent := bgBP
                bg_fsync := pyInt m.bgFsync
                bg_fsync_percent := bgFP }
            parseStorageIoStats lines fuel (idx + 1) (acc ++ [st])
        | none => parseStorageIoStats lines fuel (idx + 1) acc

/-- The `while` loop of `_parse_collection`: runs until the stripped
current line is a `Collection` header or starts with 50 dashes.  Each line
is tried against the counter patterns; note that the `Total CPU cycles`
branch assigns the stray `total_cycles` attribute, not `total_cpu_cycles`
(the `total_cpu_cycles` field keeps its default), and that the
`TOTAL_CPU_TIME_PATTERN` test is a separate `if` ahead of the `if/elif`
chain that starts at the cycles test. -/
def parseCollectionLoop (lines : List (List Char)) :
    Nat → Nat → StatsCollection → Except PyErr (StatsCollection × Nat)
  | 0, _, _ => .error .fuelOut
  | fuel + 1, idx, c =>
    match lines[idx]? with
    | none => .error .indexError
    | some rawLine =>
      let line := pyStrip rawLine
      if (statsCollectionMatch line).isSome || dashes50.isPrefixOf line then
        .ok (c, idx)
      else
        let c :=
          match totalCpuTimeMatch line with
          | some d => { c with total_cpu_time_ms := pyInt d }
          | none => c
        match totalCpuCyclesMatch line with
        | some d =>
            parseCollectionLoop lines fuel (idx + 1)
              { c with total_cycles := some (pyInt d) }
        | none =>
        match totalIdleCpuTimeMatch line with
        | some d =>
            parseCollectionLoop lines fuel (idx + 1)
              { c with idle_cpu_time_ms := pyInt d }
        | none =>
        match cpuIoWaitTimeMatch line with
        | some d =>
            parseCollectionLoop lines fuel (idx + 1)
              { c with io_wait_time_ms := pyInt d }
        | none =>
        match contextSwitchesMatch line with
        | some d =>
            parseCollectionLoop lines fuel (idx + 1)
              { c with context_switches := pyInt d }
        | none =>
        match ioBlockedProcessesMatch line with
        | some d =>
            parseCollectionLoop lines fuel (idx + 1)
              { c with io_blocked_processes := pyInt d }
        | none =>
        match majorPageFaultsMatch line with
        | some d =>
            parseCollectionLoop lines fuel (idx + 1)
              { c with major_page_faults := pyInt d }
        | none =>
        if line = "Top N CPU Times:".data then do
          let (pkgs, idx2) ← parseCpuStats lines (lines.length + 1) (idx + 1)
            [] none
          parseCollectionLoop lines fuel idx2
            { c with package_cpu_stats := pkgs }
        else if topNReadsMatch line then do
          let (st, idx2) ← parseStorageIoStats lines (lines.length + 1)
            (idx + 1) []
          parseCollectionLoop lines fuel idx2
            { c with package_storage_io_read_stats := st }
        else if topNWritesMatch line then do
          let (st, idx2) ← parseStorageIoStats lines (lines.length + 1)
            (idx + 1) []
          parseCollectionLoop lines fuel idx2
            { c with package_storage_io_write_stats := st }
        else parseCollectionLoop lines fuel (idx + 1) c

/-- `_parse_collection(lines, idx, match)`: stores the captured id, parses
the captured date with `strptime` (a mismatch raises `ValueError`), then
runs the field loop. -/
def parseCollection (lines : List (List Char)) (fuel idx : Nat)
    (idSpan dateSpan : List Char) : Except PyErr (StatsCollection × Nat) := do
  let date ← strptimeDump dateSpan
  parseCollectionLoop lines fuel idx { id := pyInt idSpan, date := some date }

/-- `_parse_stats_collections(lines, idx)`: collects the non-empty
collections of one report section, stopping at the 50-dash terminator
(which it does not consume). -/
def parseStatsCollections (lines : List (List Char)) :
    Nat → Nat → SystemEventStats →
    Except PyErr (SystemEventStats × Nat)
  | 0, _, _ => .error .fuelOut
  | fuel + 1, idx, s =>
    match lines[idx]? with
    | none => .error .indexError
    | some rawLine =>
      let line := pyStrip rawLine
      if dashes50.isPrefixOf line then .ok (s, idx)
      else
        match statsCollectionMatch line with
        | some (idSpan, dateSpan) => do
            let (c, idx2) ← parseCollection lines (lines.length + 1) (idx + 1)
              idSpan dateSpan
            if c.is_empty then parseStatsCollections lines fuel idx2 s
            else parseStatsCollections lines fuel idx2 (s.add c)
        | none => parseStatsCollections lines fuel (idx + 1) s

/-- The top-level scan of `parse_dump`: note that the section headers are
tested against the line text captured before the boot-time branch may have
advanced `idx`, that only the custom-collection test carries an `else`
(so after a boot-time or periodic section the terminator index is advanced
past by the shared `idx += 1`), and that the custom branch skips two lines
(header and the dashed line that follows it). -/
def parseDumpLoop (lines : List (List Char)) :
    Nat → Nat → PerformanceStats → Except PyErr PerformanceStats
  | 0, _, _ => .error .fuelOut
  | fuel + 1, idx, perf =>
    match lines[idx]? with
    | none => .ok perf
    | some rawLine => do
      let line := pyStrip rawLine
      let (perf, idx) ←
        if bootTimeHeaderMatch line then do
          let (boot, idx2) ← parseStatsCollections lines (lines.length + 1)
            idx {}
          pure
            (if !boot.is_empty then perf.set_boot_time_stats boot else perf,
              idx2)
        else pure (perf, idx)
      let (perf, idx) ←
        if line = "Periodic collection report:".data ∨
            line = "Last N minutes performance report:".data then do
          let (lastN, idx2) ← parseStatsCollections lines (lines.length + 1)
            idx {}
          pure
            (if !lastN.is_empty then perf.set_last_n_minutes_stats lastN
              else perf, idx2)
        else pure (perf, idx)
      if line = "Custom performance data report:".data then do
        let (custom, idx2) ← parseStatsCollections lines (lines.length + 1)
          (idx + 2) {}
        let perf :=
          if !custom.is_empty then perf.set_custom_collection_stats custom
          else perf
        parseDumpLoop lines fuel idx2 perf
      else parseDumpLoop lines fuel (idx + 1) perf

/-- Python `dump.split("\n")`. -/
def splitNl : List Char → List (List Char)
  | [] => [[]]
  | c :: rest =>
    if c = '\n' then [] :: splitNl rest
    else
      match splitNl rest with
      | h :: t => (c :: h) :: t
      | [] => [[c]]

/-- `parse_dump(dump)` from the source, with every raising statement made
explicit in the `Except` result. -/
def parse_dump (dump : String) : Except PyErr PerformanceStats :=
  let lines := splitNl dump.data
  parseDumpLoop lines (lines.length + 1) 0 {}

/-- Decidable equality of `Except` results, for evaluating the embedded
functions inside `decide`. -/
instance {ε α : Type} [DecidableEq ε] [DecidableEq α] :
    DecidableEq (Except ε α)
  | .ok a, .ok b =>
      if h : a = b then .isTrue (by rw [h]) else .isFalse (by simp [h])
  | .error a, .error b =>
      if h : a = b then .isTrue (by rw [h]) else .isFalse (by simp [h])
  | .ok _, .error _ => .isFalse (by simp)
  | .error _, .ok _ => .isFalse (by simp)

/-- Python `round(x, 2)` (round-half-to-even), on the rational model of
floats: `100 q = (100 num) / den` is split as `fl + r / den` with
`fl = ⌊100 q⌋` via integer floor division, and the fractional part
`r / den` is compared with `1/2` by cross-multiplication. -/
def pyRound2 (q : ℚ) : ℚ :=
  let n100 : Int := q.num * 100
  let fl : Int := Int.fdiv n100 (q.den : Int)
  let r : Int := n100 - fl * (q.den : Int)
  let n : Int :=
    if 2 * r < (q.den : Int) then fl
    else if (q.den : Int) < 2 * r then fl + 1
    else if fl % 2 = 0 then fl else fl + 1
  mkRat n 100

/-- Wire message `performancestats_pb2.Date`. -/
structure DatePb where
  year : Int := 0
  month : Int := 0
  day : Int := 0
deriving DecidableEq, Repr

/-- Wire message `performancestats_pb2.TimeOfDay`. -/
structure TimeOfDayPb where
  hours : Int := 0
  minutes : Int := 0
  seconds : Int := 0
deriving DecidableEq, Repr

/-- Wire message `performancestats_pb2.ProcessCpuStats`. -/
structure ProcessCpuStatsPb where
  command : List Char := []
  cpu_time_ms : Int := 0
  package_cpu_time_percent : ℚ := 0
  cpu_cycles : Int := 0
deriving DecidableEq, Repr

/-- Wire message `performancestats_pb2.PackageCpuStats`. -/
structure PackageCpuStatsPb where
  user_id : Int := 0
  package_name : List Char := []
  cpu_time_ms : Int := 0
  total_cpu_time_percent : ℚ := 0
  cpu_cycles : Int := 0
  process_cpu_stats : List ProcessCpuStatsPb := []
deriving DecidableEq, Repr

/-- Wire message `performancestats_pb2.PackageStorageIoStats`. -/
structure PackageStorageIoStatsPb where
  user_id : Int := 0
  package_name : List Char := []
  fg_bytes : Int := 0
  fg_bytes_percent : ℚ := 0
  fg_fsync : Int := 0
  fg_fsync_percent : ℚ := 0
  bg_bytes : Int := 0
  bg_bytes_percent : ℚ := 0
  bg_fsync : Int := 0
  bg_fsync_percent : ℚ := 0
deriving DecidableEq, Repr

/-- Wire message `performancestats_pb2.StatsCollection`. -/
structure StatsCollectionPb where
  id : Int := 0
  date : DatePb := {}
  time : TimeOfDayPb := {}
  total_cpu_time_ms : Int := 0
  total_cpu_cycles : Int := 0
  idle_cpu_time_ms : Int := 0
  io_wait_time_ms : Int := 0
  context_switches : Int := 0
  io_blocked_processes : Int := 0
  major_page_faults : Int := 0
  package_cpu_stats : List PackageCpuStatsPb := []
  package_storage_io_read_stats : List PackageStorageIoStatsPb := []
  package_storage_io_write_stats : List PackageStorageIoStatsPb := []
deriving DecidableEq, Repr

/-- Wire message `performancestats_pb2.SystemEventStats`. -/
structure SystemEventStatsPb where
  collections : List StatsCollectionPb := []
deriving DecidableEq, Repr

/-- Wire message `performancestats_pb2.PerformanceStats`.  Reading an
unset message field yields the default (empty) sub-message, which is all
`_get_system_event` observes, so presence bits are not modelled. -/
structure PerformanceStatsPb where
  boot_time_stats : SystemEventStatsPb := {}
  last_n_minutes_stats : SystemEventStatsPb := {}
  custom_collection_stats : SystemEventStatsPb := {}
deriving DecidableEq, Repr

/-- `BuildInformation` of the parser module (all fields default `None`). -/
structure BuildInformation where
  fingerprint : Option (List Char) := none
  brand : Option (List Char) := none
  product : Option (List Char) := none
  device : Option (List Char) := none
  version_release : Option (List Char) := none
  id : Option (List Char) := none
  version_incremental : Option (List Char) := none
  type : Option (List Char) := none
  tags : Option (List Char) := none
  sdk : Option (List Char) := none
  platform_minor : Option (List Char) := none
  codename : Option (List Char) := none
deriving DecidableEq, Repr

/-- Wire message `deviceperformancestats_pb2.BuildInformation`. -/
structure BuildInformationPb where
  fingerprint : List Char := []
  brand : List Char := []
  product : List Char := []
  device : List Char := []
  version_release : List Char := []
  id : List Char := []
  version_incremental : List Char := []
  type : List Char := []
  tags : List Char := []
  sdk : List Char := []
  platform_minor : List Char := []
  codename : List Char := []
deriving DecidableEq, Repr

/-- Wire message `deviceperformancestats_pb2.DevicePerformanceStats`. -/
structure DevicePerformanceStatsPb where
  build_info : BuildInformationPb := {}
  perf_stats : List PerformanceStatsPb := []
deriving DecidableEq, Repr

/-- `_create_date_pb(date)`: reads `date.year/...`, so a `None` date (a
constructor-built collection that never saw a `Collection` header) raises
`AttributeError`. -/
def createDatePb : Option PyDateTime → Except PyErr DatePb
  | some d => .ok ⟨d.year, d.month, d.day⟩
  | none => .error .attributeError

/-- `_create_timeofday_pb(date)`. -/
def createTimeofdayPb : Option PyDateTime → Except PyErr TimeOfDayPb
  | some d => .ok ⟨d.hour, d.minute, d.second⟩
  | none => .error .attributeError

/-- Wire form of one `ProcessCpuStats` (the constructor call inside the
process loop of `_add_system_event_pb`). -/
def procPbOf (p : ProcessCpuStats) : ProcessCpuStatsPb :=
  { command := p.command
    cpu_time_ms := p.cpu_time_ms
    package_cpu_time_percent := p.package_cpu_time_percent
    cpu_cycles := p.cpu_cycles }

/-- Wire form of one `PackageCpuStats` together with its processes, as
built by one iteration of the package loop of `_add_system_event_pb`. -/
def pkgPbOf (p : PackageCpuStats) : PackageCpuStatsPb :=
  { user_id := p.user_id
    package_name := p.package_name
    cpu_time_ms := p.cpu_time_ms
    total_cpu_time_percent := p.total_cpu_time_percent
    cpu_cycles := p.cpu_cycles
    process_cpu_stats := p.process_cpu_stats.map procPbOf }

/-- The collection loop of `_add_system_event_pb`, with the mutations of
the source reproduced:
* `lastPkg` threads the Python binding `package_cpu_stats_pb`, which is
  created inside the package loop but appended *after* the loop (the
  append statements are at collection-loop level in the source), so only
  the last package of a collection reaches the wire message, a
  package-free first collection raises `NameError` on the unbound name,
  and a package-free later collection re-appends the binding left over
  from an earlier collection;
* `system_event_pb.collections.append(stats_collection_pb)` copies the
  message *before* the storage-I/O loops run, so the storage-I/O appends
  (which in the source also both target `package_storage_io_read_stats`)
  only mutate the discarded local message and are dropped entirely. -/
def addSystemEventCollections :
    List StatsCollection → Option PackageCpuStatsPb → SystemEventStatsPb →
    Except PyErr SystemEventStatsPb
  | [], _, acc => .ok acc
  | c :: rest, lastPkg, acc => do
    let d ← createDatePb c.date
    let t ← createTimeofdayPb c.date
    let base : StatsCollectionPb :=
      { id := c.id
        date := d
        time := t
        total_cpu_time_ms := c.total_cpu_time_ms
        total_cpu_cycles := c.total_cpu_cycles
        idle_cpu_time_ms := c.idle_cpu_time_ms
        io_wait_time_ms := c.io_wait_time_ms
        context_switches := c.context_switches
        io_blocked_processes := c.io_blocked_processes
        major_page_faults := c.major_page_faults }
    let lastPkg :=
      c.package_cpu_stats.foldl (fun _ p => some (pkgPbOf p)) lastPkg
    match lastPkg with
    | none => .error .nameError
    | some pk =>
        let colPb := { base with package_cpu_stats := [pk] }
        addSystemEventCollections rest lastPkg
          { acc with collections := acc.collections ++ [colPb] }

/-- `_add_system_event_pb(system_event_stats, system_event_pb)`. -/
def add_system_event_pb (s : SystemEventStats) (pb : SystemEventStatsPb) :
    Except PyErr SystemEventStatsPb :=
  addSystemEventCollections s.collections none pb

/-- Requires a build-info field to be set: assigning `None` to a proto
string field raises `TypeError`. -/
def reqStr : Option (List Char) → Except PyErr (List Char)
  | some s => .ok s
  | none => .error .typeError

/-- The `deviceperformancestats_pb2.BuildInformation(...)` constructor
call of `write_pb`. -/
def buildInfoPbOf (b : BuildInformation) : Except PyErr BuildInformationPb := do
  let fingerprint ← reqStr b.fingerprint
  let brand ← reqStr b.brand
  let product ← reqStr b.product
  let device ← reqStr b.device
  let version_release ← reqStr b.version_release
  let id ← reqStr b.id
  let version_incremental ← reqStr b.version_incremental
  let type ← reqStr b.type
  let tags ← reqStr b.tags
  let sdk ← reqStr b.sdk
  let platform_minor ← reqStr b.platform_minor
  let codename ← reqStr b.codename
  .ok { fingerprint, brand, product, device, version_release, id,
        version_incremental, type, tags, sdk, platform_minor, codename }

/-- A file written by `write_pb` (name paired with the serialized wire
message; the binary encoding itself is injective on messages and is not
modelled further). -/
inductive PbFile where
  | perf (pb : PerformanceStatsPb)
  | device (pb : DevicePerformanceStatsPb)
deriving DecidableEq, Repr

/-- `write_pb(perf_stats, out_file, build_info, out_build_file)`: returns
the Python result together with the list of files written.  The empty-stats
guard returns `False` before any message is built or any file opened.
`if out_file:` is string truthiness; `open(None, "wb")` (the default
`out_build_file` with a `build_info` present) raises `TypeError`. -/
def write_pb (perf_stats : PerformanceStats) (out_file : List Char)
    (build_info : Option BuildInformation := none)
    (out_build_file : Option (List Char) := none) :
    Except PyErr (Bool × List (List Char × PbFile)) := do
  if ← perf_stats.is_empty then return (false, [])
  let pb : PerformanceStatsPb := {}
  let pb ←
    match perf_stats.get_boot_time_stats with
    | some stats => do
        let se ← add_system_event_pb stats {}
        pure { pb with boot_time_stats := se }
    | none => pure pb
  let pb ←
    match perf_stats.get_last_n_minutes_stats with
    | some stats => do
        let se ← add_system_event_pb stats {}
        pure { pb with last_n_minutes_stats := se }
    | none => pure pb
  let pb ←
    match ← perf_stats.get_custom_collection_stats with
    | some stats => do
        let se ← add_system_event_pb stats {}
        pure { pb with custom_collection_stats := se }
    | none => pure pb
  let files := if out_file.isEmpty then [] else [(out_file, PbFile.perf pb)]
  match build_info with
  | none => return (true, files)
  | some bi => do
      let bipb ← buildInfoPbOf bi
      let dpb : DevicePerformanceStatsPb :=
        { build_info := bipb, perf_stats := [pb] }
      match out_build_file with
      | none => .error .typeError
      | some f => return (true, files ++ [(f, .device dpb)])

/-- `ProcessCpuStats.from_proto` (rounds the percent to 2 decimals). -/
def ProcessCpuStats.from_proto (pb : ProcessCpuStatsPb) : ProcessCpuStats :=
  { command := pb.command
    cpu_time_ms := pb.cpu_time_ms
    package_cpu_time_percent := pyRound2 pb.package_cpu_time_percent
    cpu_cycles := pb.cpu_cycles }

/-- `PackageCpuStats.from_proto` (children are appended by the caller). -/
def PackageCpuStats.from_proto (pb : PackageCpuStatsPb) : PackageCpuStats :=
  { user_id := pb.user_id
    package_name := pb.package_name
    cpu_time_ms := pb.cpu_time_ms
    total_cpu_time_percent := pyRound2 pb.total_cpu_time_percent
    cpu_cycles := pb.cpu_cycles
    process_cpu_stats := [] }

/-- `PackageStorageIoStats.from_proto`. -/
def PackageStorageIoStats.from_proto (pb : PackageStorageIoStatsPb) :
    PackageStorageIoStats :=
  { user_id := pb.user_id
    package_name := pb.package_name
    fg_bytes := pb.fg_bytes
    fg_bytes_percent := pyRound2 pb.fg_bytes_percent
    fg_fsync := pb.fg_fsync
    fg_fsync_percent := pyRound2 pb.fg_fsync_percent
    bg_bytes := pb.bg_bytes
    bg_bytes_percent := pyRound2 pb.bg_bytes_percent
    bg_fsync := pb.bg_fsync
    bg_fsync_percent := pyRound2 pb.bg_fsync_percent }

/-- One iteration of the collection loop of `_get_system_event`: rebuilds
a `StatsCollection` from the wire message (the `datetime.datetime(...)`
constructor call can raise `ValueError`, e.g. on the all-zero default
`Date`). -/
def statsCollectionFromPb (pb : StatsCollectionPb) :
    Except PyErr StatsCollection := do
  let date ← pyDatetime pb.date.year pb.date.month pb.date.day
    pb.time.hours pb.time.minutes pb.time.seconds
  .ok { id := pb.id
        date := some date
        total_cpu_time_ms := pb.total_cpu_time_ms
        total_cpu_cycles := pb.total_cpu_cycles
        idle_cpu_time_ms := pb.idle_cpu_time_ms
        io_wait_time_ms := pb.io_wait_time_ms
        context_switches := pb.context_switches
        io_blocked_processes := pb.io_blocked_processes
        major_page_faults := pb.major_page_faults
        package_cpu_stats := pb.package_cpu_stats.map (fun ppb =>
          { PackageCpuStats.from_proto ppb with
            process_cpu_stats :=
              ppb.process_cpu_stats.map ProcessCpuStats.from_proto })
        package_storage_io_read_stats :=
          pb.package_storage_io_read_stats.map PackageStorageIoStats.from_proto
        package_storage_io_write_stats :=
          pb.package_storage_io_write_stats.map
            PackageStorageIoStats.from_proto }

/-- `_get_system_event(system_event_pb)`: `None` for an empty collections
list, otherwise the rebuilt `SystemEventStats`. -/
def getSystemEvent (pb : SystemEventStatsPb) :
    Except PyErr (Option SystemEventStats) := do
  if pb.collections.isEmpty then return none
  let cols ← pb.collections.mapM statsCollectionFromPb
  return some ⟨cols⟩

/-- `_get_perf_stats(perf_stats_pb)`: assigns the attributes
`boot_time_stats` / `last_n_minutes_stats` / `custom_collection_stats`
(no leading underscore), leaving the underscore fields that `__init__` set
— and that every getter and `is_empty` read — untouched at `None`. -/
def get_perf_stats (pb : PerformanceStatsPb) :
    Except PyErr PerformanceStats := do
  let b ← getSystemEvent pb.boot_time_stats
  let l ← getSystemEvent pb.last_n_minutes_stats
  let c ← getSystemEvent pb.custom_collection_stats
  .ok { boot_time_stats := some b
        last_n_minutes_stats := some l
        custom_collection_stats := some c }

/-- Head of the list fails the predicate (vacuously for the empty list);
used to state where a greedy character-class run must stop. -/
def headFails (p : Char → Bool) : List Char → Prop
  | [] => True
  | c :: _ => p c = false

/-- The concrete dump of the spec scenario: one boot-time collection block
with CPU-time, idle-time and context-switch lines, a Top-N CPU section with
one package line and one process line, terminated by 50 dashes. -/
def c3dump : String :=
  "Boot-time performance report:\nCollection 1: <Mon Jan 01 00:00:00 2024 UTC>\nTotal CPU time (ms): 1000\nTotal idle CPU time (ms)/percent: 200 / 20.0%\nNumber of context switches: 50\nTop N CPU Times:\n10, com.example.app, 500, 50.00%, 12345\n  com.example.app_process, 480, 96.00%, 12000\n--------------------------------------------------"

/-- The process record that parsing `c3dump` produces. -/
def c3proc : ProcessCpuStats :=
  { command := "com.example.app_process".data
    cpu_time_ms := 480
    package_cpu_time_percent := 96
    cpu_cycles := 12000 }

/-- The package record that parsing `c3dump` produces. -/
def c3pkg : PackageCpuStats :=
  { user_id := 10
    package_name := "com.example.app".data
    cpu_time_ms := 500
    total_cpu_time_percent := 50
    cpu_cycles := 12345
    process_cpu_stats := [c3proc] }

/-- The collection that parsing `c3dump` produces: note
`total_cpu_time_ms = 0` and `idle_cpu_time_ms = 0`. -/
def c3coll : StatsCollection :=
  { id := 1
    date := some ⟨2024, 1, 1, 0, 0, 0⟩
    context_switches := 50
    package_cpu_stats := [c3pkg] }

/-- A boot-time header followed immediately by the dashed terminator. -/
def c6dump : String :=
  "Boot-time performance report:\n--------------------------------------------------"

/-- A dump whose collection header has a date not matching
`DUMP_DATETIME_FORMAT`. -/
def c2badDate : String :=
  "Boot-time performance report:\nCollection 1: <garbage>\n--------------------------------------------------"

/-- A dump whose boot-time section is not terminated by a dashed line. -/
def c2unterminated : String :=
  "Boot-time performance report:"

/-- A properly terminated dump containing a malformed line inside the
collection block. -/
def c2good : String :=
  "Boot-time performance report:\nCollection 1: <Mon Jan 01 00:00:00 2024 UTC>\n!!! malformed line !!!\nNumber of context switches: 50\n--------------------------------------------------"

/-- The collection parsed from `c2good` (the malformed line is skipped). -/
def c2goodColl : StatsCollection :=
  { id := 1
    date := some ⟨2024, 1, 1, 0, 0, 0⟩
    context_switches := 50 }

/-- The emptiness predicate exactly as claim C4 words it: every one of the
seven counters is individually zero. -/
def claimEmptyC4 (c : StatsCollection) : Prop :=
  c.id = -1 ∧ c.date = none ∧ c.total_cpu_time_ms = 0 ∧
    c.total_cpu_cycles = 0 ∧ c.idle_cpu_time_ms = 0 ∧
    c.io_wait_time_ms = 0 ∧ c.context_switches = 0 ∧
    c.io_blocked_processes = 0 ∧ c.major_page_faults = 0 ∧
    c.package_cpu_stats = [] ∧ c.package_storage_io_read_stats = [] ∧
    c.package_storage_io_write_stats = []

/-- Counterexample collection for C4: the counters deviate from zero but
cancel in the sum that `is_empty` actually tests. -/
def c4cex : StatsCollection :=
  { total_cpu_time_ms := 1, idle_cpu_time_ms := -1 }

/-- The "in particular" collection of C4: id 3, all counters 0, one
package-CPU entry. -/
def c4id3 : StatsCollection :=
  { id := 3, package_cpu_stats := [c3pkg] }

/-- A process record used in the C1 round-trip input. -/
def c1proc : ProcessCpuStats :=
  ⟨"proc1".data, 480, 96, 12000⟩

/-- First package of the C1 round-trip input (with one process). -/
def c1pkgA : PackageCpuStats :=
  { user_id := 10, package_name := "app.a".data, cpu_time_ms := 500,
    total_cpu_time_percent := 50, cpu_cycles := 12345,
    process_cpu_stats := [c1proc] }

/-- Second package of the C1 round-trip input. -/
def c1pkgB : PackageCpuStats :=
  { user_id := 11, package_name := "app.b".data, cpu_time_ms := 300,
    total_cpu_time_percent := 30, cpu_cycles := 999 }

/-- Storage-I/O record of the C1 round-trip input. -/
def c1io : PackageStorageIoStats :=
  ⟨10, "app.a".data, 1, 2, 3, 4, 5, 6, 7, 8⟩

/-- The C1 round-trip collection: two packages, one read and one write
storage record. -/
def c1coll : StatsCollection :=
  { id := 1, date := some ⟨2024, 1, 1, 0, 0, 0⟩, total_cpu_time_ms := 100,
    package_cpu_stats := [c1pkgA, c1pkgB],
    package_storage_io_read_stats := [c1io],
    package_storage_io_write_stats := [c1io] }

/-- The C1 round-trip input: a non-empty `PerformanceStats` built purely
from in-memory constructors. -/
def c1x : PerformanceStats :=
  { boot_time_stats_ := some ⟨[c1coll]⟩ }

/-- The wire form of `c1pkgB`, the only package that reaches the wire. -/
def c1pbPkg : PackageCpuStatsPb :=
  { user_id := 11, package_name := "app.b".data, cpu_time_ms := 300,
    total_cpu_time_percent := 30, cpu_cycles := 999 }

/-- The collection that `write_pb c1x` puts on the wire: only the last
package survives and both storage-I/O lists are dropped. -/
def c1pbColl : StatsCollectionPb :=
  { id := 1, date := ⟨2024, 1, 1⟩, time := ⟨0, 0, 0⟩,
    total_cpu_time_ms := 100, package_cpu_stats := [c1pbPkg] }

/-- The wire message that `write_pb c1x` actually produces. -/
def c1pb : PerformanceStatsPb :=
  { boot_time_stats := ⟨[c1pbColl]⟩ }

/-- The collection rebuilt by `_get_perf_stats c1pb`. -/
def c1rtColl : StatsCollection :=
  { id := 1, date := some ⟨2024, 1, 1, 0, 0, 0⟩, total_cpu_time_ms := 100,
    package_cpu_stats := [{ c1pkgB with process_cpu_stats := [] }] }

/-- The `PerformanceStats` that `_get_perf_stats c1pb` returns: the
deserialized stats sit in the stray non-underscore attributes, the
underscore fields every getter reads stay `None`. -/
def c1rt : PerformanceStats :=
  { boot_time_stats := some (some ⟨[c1rtColl]⟩)
    last_n_minutes_stats := some none
    custom_collection_stats := some none }

/-- A non-empty `SystemEventStats` for the C10 scenario. -/
def c10se : SystemEventStats :=
  ⟨[{ id := 3 }]⟩

/-- A `PerformanceStats` with non-empty boot-time stats, for the C10
counterexample. -/
def c10boot : PerformanceStats :=
  { boot_time_stats_ := some c10se }

theorem span_append_digits {p : Char → Bool} {d r : List Char}
    (hd : ∀ c ∈ d, p c = true) (hr : headFails p r) :
    (d ++ r).span p = (d, r) := by
  induction d with
  | nil =>
      simp only [List.nil_append, List.span_eq_take_drop]
      cases r with
      | nil => simp
      | cons c r2 =>
          simp only [headFails] at hr
          simp [List.takeWhile_cons, List.dropWhile_cons, hr]
  | cons a d ih =>
      have ha := hd a (by simp)
      have ih2 := ih (fun c hc => hd c (by simp [hc]))
      simp only [List.span_eq_take_drop] at ih2 ⊢
      simp [List.takeWhile_cons, List.dropWhile_cons, ha,
        Prod.ext_iff] at ih2 ⊢
      exact ih2

theorem dropLit_append (lit r : List Char) :
    dropLit lit (lit ++ r) = some r := by
  simp [dropLit, List.isPrefixOf_iff_prefix, List.drop_left]

theorem dropLit_mismatch {a b : Char} (lit l : List Char) (h : a ≠ b) :
    dropLit (a :: lit) (b :: l) = none := by
  simp [dropLit, List.isPrefixOf, h]

theorem dropLit_nil (a : Char) (lit : List Char) :
    dropLit (a :: lit) [] = none := by
  simp [dropLit, List.isPrefixOf]

theorem bestSplit_none {β : Type} (tm : List Char → Option β) (l : List Char)
    (h : ∀ j, tm (l.drop (j + 1)) = none) : bestSplit tm l = none := by
  induction l with
  | nil => rfl
  | cons c rest ih =>
      have h0 : tm rest = none := by simpa using h 0
      have ih2 : bestSplit tm rest = none :=
        ih (fun j => by simpa using h (j + 1))
      simp [bestSplit, ih2, h0]

theorem bestSplit_eq {β : Type} (tm : List Char → Option β)
    (pre suf : List Char) (b : β) (hpre : pre ≠ [])
    (hb : tm suf = some b)
    (hmax : ∀ j, tm (suf.drop (j + 1)) = none) :
    bestSplit tm (pre ++ suf) = some (pre, b) := by
  induction pre with
  | nil => exact absurd rfl hpre
  | cons c pre ih =>
      cases pre with
      | nil =>
          have hn : bestSplit tm suf = none := bestSplit_none tm suf hmax
          simp [bestSplit, hn, hb]
      | cons c2 pre2 =>
          have ih2 := ih (by simp)
          rw [List.cons_append, bestSplit, ih2]

theorem count_comma_zero_of_digits {l : List Char}
    (h : ∀ c ∈ l, c.isDigit = true) : l.count ',' = 0 := by
  refine List.count_eq_zero.mpr (fun hc => ?_)
  have := h ',' hc
  simp at this

theorem count_drop_le (l : List Char) (k : Nat) (c : Char) :
    (l.drop k).count c ≤ l.count c :=
  List.Sublist.count_le (List.drop_sublist k l) c

theorem dropLit_some {lit l r : List Char} (h : dropLit lit l = some r) :
    l = lit ++ r := by
  unfold dropLit at h
  split at h
  · rename_i hp
    have hpre : lit <+: l := by
      simpa [List.isPrefixOf_iff_prefix] using hp
    obtain ⟨r2, rfl⟩ := hpre
    rw [List.drop_left] at h
    cases h
    rfl
  · exact absurd h (by simp)

theorem span_digit_parts {l t r : List Char}
    (h : l.span (·.isDigit) = (t, r)) :
    l = t ++ r ∧ ∀ c ∈ t, c.isDigit = true := by
  rw [List.span_eq_take_drop, Prod.mk.injEq] at h
  obtain ⟨ht, hr⟩ := h
  constructor
  · rw [← ht, ← hr, List.takeWhile_append_dropWhile]
  · intro c hc
    rw [← ht] at hc
    exact List.mem_takeWhile_imp hc

theorem tailPkgCpu_commas {s : List Char} {m : PkgCpuMatch}
    (h : tailPkgCpu s = some m) : 2 ≤ s.count ',' := by
  unfold tailPkgCpu at h
  cases h1 : dropLit commaSp s with
  | none => rw [h1] at h; exact absurd h (by simp)
  | some r =>
    rw [h1] at h
    dsimp only at h
    rcases hsp : r.span (·.isDigit) with ⟨t, r2⟩
    rw [hsp] at h
    obtain ⟨hreq, hdig⟩ := span_digit_parts hsp
    cases h2 : dropLit commaSp r2 with
    | none => rw [h2] at h; simp at h
    | some r3 =>
      have hs := dropLit_some h1
      have hr2 := dropLit_some h2
      subst hs hreq hr2
      simp [commaSp, List.count_append, count_comma_zero_of_digits hdig]

theorem tailProcCpu_commas {s : List Char} {m : ProcCpuMatch}
    (h : tailProcCpu s = some m) : 2 ≤ s.count ',' := by
  unfold tailProcCpu at h
  cases h1 : dropLit commaSp s with
  | none => rw [h1] at h; exact absurd h (by simp)
  | some r =>
    rw [h1] at h
    dsimp only at h
    rcases hsp : r.span (·.isDigit) with ⟨t, r2⟩
    rw [hsp] at h
    obtain ⟨hreq, hdig⟩ := span_digit_parts hsp
    cases h2 : dropLit commaSp r2 with
    | none => rw [h2] at h; simp at h
    | some r3 =>
      have hs := dropLit_some h1
      have hr2 := dropLit_some h2
      subst hs hreq hr2
      simp [commaSp, List.count_append, count_comma_zero_of_digits hdig]

theorem headFails_commaSp (x : List Char) :
    headFails (·.isDigit) (commaSp ++ x) := by
  simp [commaSp, headFails]

theorem tailPkgCpu_eval {t ip fp : List Char}
    (ht : ∀ c ∈ t, c.isDigit = true) (ht0 : ¬ t.isEmpty = true)
    (hip : ∀ c ∈ ip, c.isDigit = true) (hip0 : ¬ ip.isEmpty = true)
    (hfp : ∀ c ∈ fp, c.isDigit = true) (hfp0 : ¬ fp.isEmpty = true) :
    tailPkgCpu
        (commaSp ++ (t ++ (commaSp ++ (ip ++ '.' :: (fp ++ ['%']))))) =
      some ⟨[], [], t, ip ++ '.' :: fp, none⟩ := by
  unfold tailPkgCpu pctDotted
  simp only [dropLit_append,
    span_append_digits ht (headFails_commaSp _),
    span_append_digits hip (show headFails _ ('.' :: (fp ++ ['%'])) by
      simp [headFails]),
    span_append_digits hfp (show headFails (fun c => c.isDigit) ['%'] by
      simp [headFails]),
    if_neg ht0, if_neg hip0, if_neg hfp0]

theorem pctAny_eval {ip fp : List Char} (rest : List Char)
    (hip : ∀ c ∈ ip, c.isDigit = true) (hip0 : ¬ ip.isEmpty = true)
    (hfp : ∀ c ∈ fp, c.isDigit = true) (hfp0 : ¬ fp.isEmpty = true) :
    pctAny (ip ++ '.' :: (fp ++ '%' :: rest)) =
      some (ip ++ '.' :: fp, rest) := by
  unfold pctAny
  simp only [
    span_append_digits hip (show headFails _ ('.' :: (fp ++ '%' :: rest)) by
      simp [headFails]),
    span_append_digits hfp (show headFails (fun c => c.isDigit)
      ('%' :: rest) by simp [headFails]),
    if_neg hip0]
  simp [hfp0]

theorem tailProcCpu_eval {t ip fp : List Char}
    (ht : ∀ c ∈ t, c.isDigit = true) (ht0 : ¬ t.isEmpty = true)
    (hip : ∀ c ∈ ip, c.isDigit = true) (hip0 : ¬ ip.isEmpty = true)
    (hfp : ∀ c ∈ fp, c.isDigit = true) (hfp0 : ¬ fp.isEmpty = true) :
    tailProcCpu
        (commaSp ++ (t ++ (commaSp ++ (ip ++ '.' :: (fp ++ ['%']))))) =
      some ⟨[], t, ip ++ '.' :: fp, none⟩ := by
  have hpct : pctAny (ip ++ '.' :: (fp ++ ['%'])) =
      some (ip ++ '.' :: fp, []) :=
    pctAny_eval [] hip hip0 hfp hfp0
  unfold tailProcCpu
  simp only [dropLit_append,
    span_append_digits ht (headFails_commaSp _), if_neg ht0, hpct]

theorem count_tail_shape {t ip fp : List Char}
    (ht : ∀ c ∈ t, c.isDigit = true)
    (hip : ∀ c ∈ ip, c.isDigit = true)
    (hfp : ∀ c ∈ fp, c.isDigit = true) (j : Nat) :
    (((commaSp ++
        (t ++ (commaSp ++ (ip ++ '.' :: (fp ++ ['%']))))).drop
          (j + 1)).count ',') ≤ 1 := by
  have hshape : (commaSp ++
      (t ++ (commaSp ++ (ip ++ '.' :: (fp ++ ['%']))))) =
      ',' :: (' ' :: (t ++ (commaSp ++ (ip ++ '.' :: (fp ++ ['%']))))) := rfl
  rw [hshape, List.drop_succ_cons]
  refine le_trans (count_drop_le _ j ',') ?_
  simp [commaSp, List.count_append, List.count_cons,
    count_comma_zero_of_digits ht, count_comma_zero_of_digits hip,
    count_comma_zero_of_digits hfp]

theorem tailPkgCpu_tails_none {t ip fp : List Char}
    (ht : ∀ c ∈ t, c.isDigit = true)
    (hip : ∀ c ∈ ip, c.isDigit = true)
    (hfp : ∀ c ∈ fp, c.isDigit = true) (j : Nat) :
    tailPkgCpu ((commaSp ++
      (t ++ (commaSp ++ (ip ++ '.' :: (fp ++ ['%']))))).drop (j + 1)) =
      none := by
  cases h : tailPkgCpu _ with
  | none => rfl
  | some m =>
      have h2 := tailPkgCpu_commas h
      have h3 := count_tail_shape ht hip hfp j
      omega

theorem tailProcCpu_tails_none {t ip fp : List Char}
    (ht : ∀ c ∈ t, c.isDigit = true)
    (hip : ∀ c ∈ ip, c.isDigit = true)
    (hfp : ∀ c ∈ fp, c.isDigit = true) (j : Nat) :
    tailProcCpu ((commaSp ++
      (t ++ (commaSp ++ (ip ++ '.' :: (fp ++ ['%']))))).drop (j + 1)) =
      none := by
  cases h : tailProcCpu _ with
  | none => rfl
  | some m =>
      have h2 := tailProcCpu_commas h
      have h3 := count_tail_shape ht hip hfp j
      omega

theorem headFails_append {p : Char → Bool} {l l' : List Char}
    (h : headFails p l) (h0 : l ≠ []) : headFails p (l ++ l') := by
  cases l with
  | nil => exact absurd rfl h0
  | cons c l2 => simpa [headFails] using h

theorem packageCpuMatch_eval {u name t ip fp : List Char}
    (hu : ∀ c ∈ u, c.isDigit = true) (hu0 : ¬ u.isEmpty = true)
    (hname : name ≠ [])
    (ht : ∀ c ∈ t, c.isDigit = true) (ht0 : ¬ t.isEmpty = true)
    (hip : ∀ c ∈ ip, c.isDigit = true) (hip0 : ¬ ip.isEmpty = true)
    (hfp : ∀ c ∈ fp, c.isDigit = true) (hfp0 : ¬ fp.isEmpty = true) :
    packageCpuMatch (u ++ (commaSp ++ (name ++
        (commaSp ++ (t ++ (commaSp ++ (ip ++ '.' :: (fp ++ ['%'])))))))) =
      some ⟨u, name, t, ip ++ '.' :: fp, none⟩ := by
  unfold packageCpuMatch
  rw [span_append_digits hu (headFails_commaSp _)]
  dsimp only
  rw [if_neg hu0, dropLit_append]
  dsimp only
  rw [bestSplit_eq tailPkgCpu name _ _ hname
    (tailPkgCpu_eval ht ht0 hip hip0 hfp hfp0)
    (tailPkgCpu_tails_none ht hip hfp)]

theorem wsTry_of_bestSplit {β : Type} (tm : List Char → Option β)
    (revWs r : List Char) (nb : List Char × β)
    (h : bestSplit tm r = some nb) : wsTry tm revWs r = some nb := by
  cases revWs <;> simp [wsTry, h]

theorem processCpuMatch_eval {wsp cmd t ip fp : List Char}
    (hwsp : ∀ c ∈ wsp, isPyWs c = true) (hwsp0 : ¬ wsp.isEmpty = true)
    (hcmd0 : cmd ≠ []) (hcmdHead : headFails isPyWs cmd)
    (ht : ∀ c ∈ t, c.isDigit = true) (ht0 : ¬ t.isEmpty = true)
    (hip : ∀ c ∈ ip, c.isDigit = true) (hip0 : ¬ ip.isEmpty = true)
    (hfp : ∀ c ∈ fp, c.isDigit = true) (hfp0 : ¬ fp.isEmpty = true) :
    processCpuMatch (wsp ++ (cmd ++
        (commaSp ++ (t ++ (commaSp ++ (ip ++ '.' :: (fp ++ ['%']))))))) =
      some ⟨cmd, t, ip ++ '.' :: fp, none⟩ := by
  have hbs : bestSplit tailProcCpu
      (cmd ++ (commaSp ++ (t ++ (commaSp ++ (ip ++ '.' :: (fp ++ ['%'])))))) =
      some (cmd, ⟨[], t, ip ++ '.' :: fp, none⟩) :=
    bestSplit_eq tailProcCpu cmd _ _ hcmd0
      (tailProcCpu_eval ht ht0 hip hip0 hfp hfp0)
      (tailProcCpu_tails_none ht hip hfp)
  unfold processCpuMatch
  rw [span_append_digits hwsp (headFails_append hcmdHead hcmd0)]
  dsimp only
  rw [if_neg hwsp0]
  rw [wsTry_of_bestSplit _ _ _ _ hbs]

theorem ws_not_digit {c : Char} (h : isPyWs c = true) : c.isDigit = false := by
  simp only [isPyWs, Bool.or_eq_true, decide_eq_true_eq] at h
  rcases h with ((((rfl | rfl) | rfl) | rfl) | rfl) | rfl <;> rfl

theorem beq_false_of_digit {a c : Char} (h : c.isDigit = true)
    (ha : a.isDigit = false) : (a == c) = false := by
  refine beq_eq_false_iff_ne.mpr (fun hac => ?_)
  rw [hac, h] at ha
  cases ha

theorem dropLit_mismatch_beq {a c : Char} (lit l : List Char)
    (h : (a == c) = false) : dropLit (a :: lit) (c :: l) = none := by
  simp [dropLit, List.isPrefixOf, h]

theorem statsCollectionMatch_head_ne {c : Char} (l : List Char)
    (hC : ('C' == c) = false) : statsCollectionMatch (c :: l) = none := by
  unfold statsCollectionMatch
  rw [show "Collection ".data = 'C' :: "ollection ".data from rfl]
  rw [dropLit_mismatch_beq _ _ hC]

theorem sectionEnd_false_of_head {c : Char} (l : List Char)
    (hT : ('T' == c) = false) (hC : ('C' == c) = false)
    (hD : ('-' == c) = false) : isStatsSectionEnd (c :: l) = false := by
  unfold isStatsSectionEnd
  rw [show "Top N".data = 'T' :: "op N".data from rfl]
  rw [show dashes50 = '-' :: List.replicate 49 '-' from rfl]
  rw [statsCollectionMatch_head_ne l hC]
  simp [List.isPrefixOf, hT, hD]

theorem sectionEnd_false_digit {c : Char} (l : List Char)
    (h : c.isDigit = true) : isStatsSectionEnd (c :: l) = false :=
  sectionEnd_false_of_head l (beq_false_of_digit h rfl)
    (beq_false_of_digit h rfl) (beq_false_of_digit h rfl)

theorem beq_false_of_ws {a c : Char} (h : isPyWs c = true)
    (ha : isPyWs a = false) : (a == c) = false := by
  refine beq_eq_false_iff_ne.mpr (fun hac => ?_)
  rw [hac, h] at ha
  cases ha

theorem sectionEnd_false_ws {c : Char} (l : List Char)
    (h : isPyWs c = true) : isStatsSectionEnd (c :: l) = false :=
  sectionEnd_false_of_head l (beq_false_of_ws h rfl)
    (beq_false_of_ws h rfl) (beq_false_of_ws h rfl)

theorem packageCpuMatch_ws_none {c : Char} (l : List Char)
    (h : isPyWs c = true) : packageCpuMatch (c :: l) = none := by
  unfold packageCpuMatch
  simp [List.span_eq_take_drop, List.takeWhile_cons, ws_not_digit h]

theorem span_all_digits {d : List Char} (hd : ∀ c ∈ d, c.isDigit = true) :
    d.span (·.isDigit) = (d, []) := by
  have := span_append_digits hd (show headFails (·.isDigit) [] from trivial)
  simpa using this

theorem pyFloat_parts {ip fp : List Char}
    (hip : ∀ c ∈ ip, c.isDigit = true) (hip0 : ¬ ip.isEmpty = true)
    (hfp : ∀ c ∈ fp, c.isDigit = true) (hfp0 : ¬ fp.isEmpty = true) :
    pyFloat (ip ++ '.' :: fp) = .ok (ratOfParts ip fp) := by
  unfold pyFloat
  rw [span_append_digits hip (show headFails _ ('.' :: fp) by
    simp [headFails])]
  dsimp only
  rw [if_neg hip0]
  have hfpne : fp ≠ [] := by
    intro hfpe
    exact hfp0 (by simp [hfpe])
  have hsp := span_all_digits hfp
  rw [List.span_eq_take_drop, Prod.mk.injEq] at hsp
  simp only [List.span_eq_take_drop, hsp.1]
  rw [if_neg]
  intro hbad
  rw [Bool.or_eq_true] at hbad
  rcases hbad with hbad | hbad
  · exact hfpne (List.isEmpty_iff.mp hbad)
  · rw [hsp.2] at hbad
    simp at hbad

theorem reverse_ne_nil {l : List Char} (h : l ≠ []) : l.reverse ≠ [] := by
  simpa using h

theorem headFails_reverse_append {p : Char → Bool} {a b : List Char}
    (h : headFails p b.reverse) (hb : b ≠ []) :
    headFails p (a ++ b).reverse := by
  rw [List.reverse_append]
  exact headFails_append h (reverse_ne_nil hb)

theorem pyRstrip_eq_self {l : List Char} (h : headFails isPyWs l.reverse) :
    pyRstrip l = l := by
  unfold pyRstrip
  cases hr : l.reverse with
  | nil =>
      have hl : l = [] := by simpa using hr
      subst hl
      rfl
  | cons c rest =>
      rw [hr] at h
      simp only [headFails] at h
      simp only [List.dropWhile_cons, h, Bool.false_eq_true, if_false]
      rw [← hr, List.reverse_reverse]

theorem headFails_reverse_cons {p : Char → Bool} {a b : List Char} {c : Char}
    (h : headFails p b.reverse) (hb : b ≠ []) :
    headFails p (a ++ c :: b).reverse := by
  rw [show a ++ c :: b = (a ++ [c]) ++ b from by simp]
  exact headFails_reverse_append h hb

theorem not_isEmpty_of_ne_nil {l : List Char} (h : l ≠ []) :
    ¬ l.isEmpty = true := by
  simpa [List.isEmpty_iff] using h

/-- C7: for package-CPU and process-CPU lines that omit the optional
trailing `, cpuCycles` group, `_parse_cpu_stats` still produces the records
with `cpu_cycles = -1` and all other fields from the line, and continues
with the following lines. -/
theorem parseCpuStats_missing_cycles
    (u name t ip fp wsp cmd t2 ip2 fp2 : List Char)
    (hu : ∀ c ∈ u, c.isDigit = true) (hu0 : u ≠ [])
    (hname : name ≠ [])
    (ht : ∀ c ∈ t, c.isDigit = true) (ht0 : t ≠ [])
    (hip : ∀ c ∈ ip, c.isDigit = true) (hip0 : ip ≠ [])
    (hfp : ∀ c ∈ fp, c.isDigit = true) (hfp0 : fp ≠ [])
    (hwsp : ∀ c ∈ wsp, isPyWs c = true) (hwsp0 : wsp ≠ [])
    (hcmd0 : cmd ≠ []) (hcmdHead : headFails isPyWs cmd)
    (ht2 : ∀ c ∈ t2, c.isDigit = true) (ht20 : t2 ≠ [])
    (hip2 : ∀ c ∈ ip2, c.isDigit = true) (hip20 : ip2 ≠ [])
    (hfp2 : ∀ c ∈ fp2, c.isDigit = true) (hfp20 : fp2 ≠ []) :
    parseCpuStats
      [u ++ (commaSp ++ (name ++ (commaSp ++ (t ++
          (commaSp ++ (ip ++ '.' :: (fp ++ ['%']))))))),
        wsp ++ (cmd ++ (commaSp ++ (t2 ++
          (commaSp ++ (ip2 ++ '.' :: (fp2 ++ ['%'])))))),
        dashes50] 4 0 [] none =
      .ok ([⟨pyInt u, name, pyInt t, ratOfParts ip fp, -1,
        [⟨cmd, pyInt t2, ratOfParts ip2 fp2, -1⟩]⟩], 2) := by
  have hpc : headFails isPyWs ['%'].reverse := by
    simp [headFails, isPyWs]
  have hf0 : headFails isPyWs (fp ++ ['%']).reverse :=
    headFails_reverse_append hpc (by simp)
  have hf1 : headFails isPyWs (ip ++ '.' :: (fp ++ ['%'])).reverse :=
    headFails_reverse_cons hf0 (by simp)
  have hf2 : headFails isPyWs
      (commaSp ++ (ip ++ '.' :: (fp ++ ['%']))).reverse :=
    headFails_reverse_append hf1 (by simp)
  have hf3 : headFails isPyWs
      (t ++ (commaSp ++ (ip ++ '.' :: (fp ++ ['%'])))).reverse :=
    headFails_reverse_append hf2 (by simp [commaSp])
  have hf4 : headFails isPyWs (commaSp ++ (t ++
      (commaSp ++ (ip ++ '.' :: (fp ++ ['%']))))).reverse :=
    headFails_reverse_append hf3 (by
      intro hx
      exact ht0 (by simpa using congrArg List.length hx))
  have hf5 : headFails isPyWs (name ++ (commaSp ++ (t ++
      (commaSp ++ (ip ++ '.' :: (fp ++ ['%'])))))).reverse :=
    headFails_reverse_append hf4 (by simp [commaSp])
  have hf6 : headFails isPyWs (commaSp ++ (name ++ (commaSp ++ (t ++
      (commaSp ++ (ip ++ '.' :: (fp ++ ['%']))))))).reverse :=
    headFails_reverse_append hf5 (by simp [hname])
  have hr0 : pyRstrip (u ++ (commaSp ++ (name ++ (commaSp ++ (t ++
      (commaSp ++ (ip ++ '.' :: (fp ++ ['%'])))))))) =
      u ++ (commaSp ++ (name ++ (commaSp ++ (t ++
        (commaSp ++ (ip ++ '.' :: (fp ++ ['%']))))))) :=
    pyRstrip_eq_self (headFails_reverse_append hf6 (by simp [commaSp]))
  have hg0 : headFails isPyWs (fp2 ++ ['%']).reverse :=
    headFails_reverse_append hpc (by simp)
  have hg1 : headFails isPyWs (ip2 ++ '.' :: (fp2 ++ ['%'])).reverse :=
    headFails_reverse_cons hg0 (by simp)
  have hg2 : headFails isPyWs
      (commaSp ++ (ip2 ++ '.' :: (fp2 ++ ['%']))).reverse :=
    headFails_reverse_append hg1 (by simp)
  have hg3 : headFails isPyWs
      (t2 ++ (commaSp ++ (ip2 ++ '.' :: (fp2 ++ ['%'])))).reverse :=
    headFails_reverse_append hg2 (by simp [commaSp])
  have hg4 : headFails isPyWs (commaSp ++ (t2 ++
      (commaSp ++ (ip2 ++ '.' :: (fp2 ++ ['%']))))).reverse :=
    headFails_reverse_append hg3 (by
      intro hx
      exact ht20 (by simpa using congrArg List.length hx))
  have hg5 : headFails isPyWs (cmd ++ (commaSp ++ (t2 ++
      (commaSp ++ (ip2 ++ '.' :: (fp2 ++ ['%'])))))).reverse :=
    headFails_reverse_append hg4 (by simp [commaSp])
  have hr1 : pyRstrip (wsp ++ (cmd ++ (commaSp ++ (t2 ++
      (commaSp ++ (ip2 ++ '.' :: (fp2 ++ ['%'])))))))  =
      wsp ++ (cmd ++ (commaSp ++ (t2 ++
        (commaSp ++ (ip2 ++ '.' :: (fp2 ++ ['%'])))))) :=
    pyRstrip_eq_self (headFails_reverse_append hg5 (by simp [hcmd0]))
  obtain ⟨uc, urest, rfl⟩ : ∃ uc urest, u = uc :: urest := by
    cases u with
    | nil => exact absurd rfl hu0
    | cons a b => exact ⟨a, b, rfl⟩
  obtain ⟨wc, wrest, rfl⟩ : ∃ wc wrest, wsp = wc :: wrest := by
    cases wsp with
    | nil => exact absurd rfl hwsp0
    | cons a b => exact ⟨a, b, rfl⟩
  have hucd : uc.isDigit = true := hu uc (by simp)
  have hwcw : isPyWs wc = true := hwsp wc (by simp)
  have hsec0 : isStatsSectionEnd ((uc :: urest) ++ (commaSp ++ (name ++
      (commaSp ++ (t ++ (commaSp ++ (ip ++ '.' :: (fp ++ ['%'])))))))) =
      false := by
    rw [List.cons_append]
    exact sectionEnd_false_digit _ hucd
  have hsec1 : isStatsSectionEnd ((wc :: wrest) ++ (cmd ++ (commaSp ++
      (t2 ++ (commaSp ++ (ip2 ++ '.' :: (fp2 ++ ['%'])))))))  = false := by
    rw [List.cons_append]
    exact sectionEnd_false_ws _ hwcw
  have hpkgm := @packageCpuMatch_eval (uc :: urest) name t ip fp hu
    (not_isEmpty_of_ne_nil hu0) hname ht (not_isEmpty_of_ne_nil ht0)
    hip (not_isEmpty_of_ne_nil hip0) hfp (not_isEmpty_of_ne_nil hfp0)
  have hpkgn : packageCpuMatch ((wc :: wrest) ++ (cmd ++ (commaSp ++
      (t2 ++ (commaSp ++ (ip2 ++ '.' :: (fp2 ++ ['%'])))))))  = none := by
    rw [List.cons_append]
    exact packageCpuMatch_ws_none _ hwcw
  have hprocm := @processCpuMatch_eval (wc :: wrest) cmd t2 ip2 fp2 hwsp
    (not_isEmpty_of_ne_nil hwsp0) hcmd0 hcmdHead ht2
    (not_isEmpty_of_ne_nil ht20) hip2 (not_isEmpty_of_ne_nil hip20)
    hfp2 (not_isEmpty_of_ne_nil hfp20)
  have hfl0 := pyFloat_parts hip (not_isEmpty_of_ne_nil hip0)
    hfp (not_isEmpty_of_ne_nil hfp0)
  have hfl1 := pyFloat_parts hip2 (not_isEmpty_of_ne_nil hip20)
    hfp2 (not_isEmpty_of_ne_nil hfp20)
  show parseCpuStats _ (3 + 1) 0 [] none = _
  rw [parseCpuStats]
  simp only [List.getElem?_cons_zero, hr0, hsec0, hpkgm, hfl0,
    Bool.false_eq_true, if_false, Bind.bind, Except.bind]
  show parseCpuStats _ (2 + 1) 1 [] _ = _
  rw [parseCpuStats]
  simp only [List.getElem?_cons_succ, List.getElem?_cons_zero, hr1, hsec1,
    hpkgn, hprocm, hfl1, Bool.false_eq_true, if_false, Bind.bind,
    Except.bind]
  show parseCpuStats _ (1 + 1) 2 [] _ = _
  rw [parseCpuStats]
  simp only [List.getElem?_cons_succ, List.getElem?_cons_zero]
  rw [show pyRstrip dashes50 = dashes50 from by decide]
  rw [show isStatsSectionEnd dashes50 = true from by decide]
  simp

/-- C1: the round-trip law fails on the code.  For the non-empty
constructor-built `c1x`: `write_pb` succeeds but puts only the last package
of the collection on the wire and drops both storage-I/O lists (the append
statements sit outside the package loop, and the collection is copied into
the wire message before the storage loops run); `_get_perf_stats` then
assigns the stray non-underscore attributes, so the deserialized object is
empty and all getters return `None` — no field of `c1x` is reproduced. -/
theorem roundtrip_loses_stats :
    c1x.is_empty = .ok false ∧
    write_pb c1x "out".data = .ok (true, [("out".data, .perf c1pb)]) ∧
    get_perf_stats c1pb = .ok c1rt ∧
    c1rt.is_empty = .ok true ∧
    c1rt.get_boot_time_stats = none ∧
    c1x.get_boot_time_stats = some ⟨[c1coll]⟩ ∧
    c1pb.boot_time_stats.collections.map
      (fun c => (c.package_cpu_stats.length,
        c.package_storage_io_read_stats.length,
        c.package_storage_io_write_stats.length)) = [(1, 0, 0)] := by
  decide

/-- C2 counterexample: `parse_dump` raises `ValueError` (it does not
return a `PerformanceStats`) on a dump whose collection-header date does
not match the expected datetime format. -/
theorem parse_dump_raises_on_bad_date :
    parse_dump c2badDate = .error .valueError := by
  decide

/-- C2 amended: malformed non-header lines inside a properly terminated
section are skipped and the parse succeeds, but `parse_dump` is not total:
a collection header with a malformed date raises `ValueError`, and a
section that reaches the end of the text without a ≥50-dash terminator
raises `IndexError`. -/
theorem parse_dump_partial_tolerance :
    parse_dump c2good = .ok { boot_time_stats_ := some ⟨[c2goodColl]⟩ } ∧
    parse_dump c2badDate = .error .valueError ∧
    parse_dump c2unterminated = .error .indexError := by
  decide

/-- C3: the concrete nine-line scenario parses to one boot-time collection
with the claimed id, date, context switches, package and process records —
but `total_cpu_time_ms` and `idle_cpu_time_ms` remain 0 instead of 1000
and 200, because `TOTAL_CPU_TIME_PATTERN` and `TOTAL_IDLE_CPU_TIME_PATTERN`
double their backslashes and thus require the literal text
`Total CPU time \ms\: ` / `Total idle CPU time \ms\/percent: `, which never
matches the dump lines `Total CPU time (ms): ` /
`Total idle CPU time (ms)/percent: `. -/
theorem parse_dump_concrete_scenario :
    parse_dump c3dump = .ok { boot_time_stats_ := some ⟨[c3coll]⟩ } ∧
    c3coll.total_cpu_time_ms = 0 ∧
    c3coll.idle_cpu_time_ms = 0 ∧
    c3coll.context_switches = 50 := by
  decide

/-- C4 counterexample: `is_empty` tests the *sum* of the seven counters,
so a collection whose counters deviate from zero but cancel
(`total_cpu_time_ms = 1`, `idle_cpu_time_ms = -1`) reports `is_empty` even
though the claimed per-field conjunction fails. -/
theorem is_empty_not_fieldwise :
    ¬ ∀ c : StatsCollection, (c.is_empty = true ↔ claimEmptyC4 c) := by
  intro h
  have h2 := (h c4cex).mp (by decide)
  exact absurd h2.2.2.1 (by decide)

/-- C4 amended: `StatsCollection.is_empty` is true iff id = -1, the date
is absent, the *sum* of the seven counters is 0 (fieldwise zero only for
non-negative counters), and the three child lists are empty; in
particular the collection with id 3 and one package entry is not empty. -/
theorem is_empty_characterization :
    (∀ c : StatsCollection, c.is_empty = true ↔
      (c.id = -1 ∧ c.date = none ∧
        c.total_cpu_time_ms + c.total_cpu_cycles + c.idle_cpu_time_ms +
          c.io_wait_time_ms + c.context_switches + c.io_blocked_processes +
          c.major_page_faults = 0 ∧
        c.package_cpu_stats = [] ∧ c.package_storage_io_read_stats = [] ∧
        c.package_storage_io_write_stats = [])) ∧
    c4id3.is_empty = false := by
  refine ⟨fun c => ?_, by decide⟩
  simp [StatsCollection.is_empty, Bool.and_eq_true, decide_eq_true_eq,
    List.isEmpty_iff, and_assoc]

/-- C5: a collection sub-block containing `Total CPU cycles: 999` leaves
`total_cpu_cycles` at its default 0, because the matching branch of
`_parse_collection` assigns the stray attribute `total_cycles` instead of
the `total_cpu_cycles` field. -/
theorem total_cpu_cycles_never_stored :
    parseCollection ["Total CPU cycles: 999".data, dashes50] 3 0
        "1".data "Mon Jan 01 00:00:00 2024 UTC".data =
      .ok ({ id := 1, date := some ⟨2024, 1, 1, 0, 0, 0⟩,
             total_cycles := some 999 }, 1) ∧
    ({ id := 1, date := some ⟨2024, 1, 1, 0, 0, 0⟩,
       total_cycles := some 999 } : StatsCollection).total_cpu_cycles = 0 := by
  decide

/-- C6: a dump whose boot-time header is followed immediately by the
dashed terminator yields a `PerformanceStats` on which
`get_boot_time_stats` returns `None` (the section is filtered out, not
stored as a present-but-empty aggregate). -/
theorem empty_boot_section_absent :
    parse_dump c6dump = .ok {} ∧
    ({} : PerformanceStats).get_boot_time_stats = none := by
  decide

/-- Witness for C7 at the concrete package and process lines of the spec
scenario with the cycles group omitted. -/
theorem parseCpuStats_missing_cycles_witness :
    parseCpuStats
      ["10".data ++ (commaSp ++ ("com.example.app".data ++ (commaSp ++
          ("500".data ++ (commaSp ++
            ("50".data ++ '.' :: ("00".data ++ ['%']))))))),
        "  ".data ++ ("com.example.app_process".data ++ (commaSp ++
          ("480".data ++ (commaSp ++
            ("96".data ++ '.' :: ("00".data ++ ['%'])))))),
        dashes50] 4 0 [] none =
      .ok ([⟨pyInt "10".data, "com.example.app".data, pyInt "500".data,
        ratOfParts "50".data "00".data, -1,
        [⟨"com.example.app_process".data, pyInt "480".data,
          ratOfParts "96".data "00".data, -1⟩]⟩], 2) :=
  parseCpuStats_missing_cycles "10".data "com.example.app".data "500".data
    "50".data "00".data "  ".data "com.example.app_process".data
    "480".data "96".data "00".data
    (by decide) (by decide) (by decide) (by decide) (by decide) (by decide)
    (by decide) (by decide) (by decide) (by decide) (by decide) (by decide)
    (by exact rfl) (by decide) (by decide) (by decide) (by decide)
    (by decide) (by decide)

/-- C8: `write_pb` on a `PerformanceStats` whose `is_empty()` evaluates to
`True` returns `False` before building any wire message or touching any
file: no file is created or modified. -/
theorem write_pb_empty_guard (p : PerformanceStats) (out_file : List Char)
    (build_info : Option BuildInformation)
    (out_build_file : Option (List Char))
    (h : p.is_empty = .ok true) :
    write_pb p out_file build_info out_build_file = .ok (false, []) := by
  unfold write_pb
  rw [h]
  rfl

/-- Witness for C8: the default-constructed (empty) stats. -/
theorem write_pb_empty_guard_witness :
    write_pb {} "out".data none none = .ok (false, []) :=
  write_pb_empty_guard {} "out".data none none (by decide)

/-- C9: whatever the wire message contains, the `PerformanceStats` that
`_get_perf_stats` returns reports `is_empty() = True` and all three
getters return `None`, because the assignments target the attributes
without the leading underscore while `__init__` left the underscore fields
— the only ones the getters and `is_empty` read — at `None`. -/
theorem get_perf_stats_always_empty (pb : PerformanceStatsPb)
    (p : PerformanceStats) (h : get_perf_stats pb = .ok p) :
    p.is_empty = .ok true ∧ p.get_boot_time_stats = none ∧
    p.get_last_n_minutes_stats = none ∧
    p.get_custom_collection_stats = .ok none := by
  unfold get_perf_stats at h
  cases hb : getSystemEvent pb.boot_time_stats with
  | error e => rw [hb] at h; simp [Bind.bind, Except.bind] at h
  | ok b =>
    rw [hb] at h
    simp only [Bind.bind, Except.bind] at h
    cases hl : getSystemEvent pb.last_n_minutes_stats with
    | error e => rw [hl] at h; simp at h
    | ok l =>
      rw [hl] at h
      cases hc : getSystemEvent pb.custom_collection_stats with
      | error e => rw [hc] at h; simp at h
      | ok c =>
        rw [hc] at h
        simp only [Except.ok.injEq] at h
        subst h
        exact ⟨rfl, rfl, rfl, rfl⟩

/-- Witness for C9 at the wire message `c1pb`, which carries a full
boot-time collection. -/
theorem get_perf_stats_always_empty_witness :
    c1rt.is_empty = .ok true ∧ c1rt.get_boot_time_stats = none ∧
    c1rt.get_last_n_minutes_stats = none ∧
    c1rt.get_custom_collection_stats = .ok none :=
  get_perf_stats_always_empty c1pb c1rt (by decide)

/-- C10 counterexample: after storing a non-empty custom collection, a
`PerformanceStats` that also has non-empty boot-time stats answers
`is_empty()` with `False` — without raising — because the conjunction in
`is_empty` short-circuits before reaching the custom field. -/
theorem custom_stats_is_empty_no_raise :
    c10se.collections ≠ [] ∧
    (c10boot.set_custom_collection_stats c10se).is_empty = .ok false := by
  decide

/-- C10 amended: `set_custom_collection_stats` stores the plain list
`stats.collections`, so afterwards `get_custom_collection_stats()` and
`to_dict()` always raise `AttributeError` (for a non-empty list), while
`is_empty()` raises only when neither boot-time nor last-n-minutes stats
are present-and-non-empty (otherwise it short-circuits to `False`). -/
theorem custom_stats_stored_as_list (s : SystemEventStats)
    (p : PerformanceStats) (hs : s.collections ≠ []) :
    (p.set_custom_collection_stats s).get_custom_collection_stats =
      .error .attributeError ∧
    (p.set_custom_collection_stats s).to_dict = .error .attributeError ∧
    ((p.set_custom_collection_stats s).has_boot_time_stats = false →
      (p.set_custom_collection_stats s).has_last_n_minutes_stats = false →
      (p.set_custom_collection_stats s).is_empty =
        .error .attributeError) := by
  obtain ⟨c, cs, hcol⟩ : ∃ c cs, s.collections = c :: cs := by
    cases hc : s.collections with
    | nil => exact absurd hc hs
    | cons a b => exact ⟨a, b, rfl⟩
  refine ⟨?_, ?_, fun hb hl => ?_⟩
  · unfold PerformanceStats.get_custom_collection_stats
      PerformanceStats.has_custom_collection_stats
    simp [PerformanceStats.set_custom_collection_stats, hcol,
      Bind.bind, Except.bind]
  · unfold PerformanceStats.to_dict
    simp [PerformanceStats.set_custom_collection_stats, hcol,
      Bind.bind, Except.bind]
  · unfold PerformanceStats.is_empty
    rw [hb, hl]
    simp only [Bool.false_eq_true, if_false]
    unfold PerformanceStats.has_custom_collection_stats
    simp [PerformanceStats.set_custom_collection_stats, hcol,
      Bind.bind, Except.bind]

/-- Witness for C4 (amended) at the default-constructed collection. -/
theorem is_empty_characterization_witness :
    ({} : StatsCollection).id = -1 ∧ ({} : StatsCollection).date = none ∧
    ({} : StatsCollection).total_cpu_time_ms +
      ({} : StatsCollection).total_cpu_cycles +
      ({} : StatsCollection).idle_cpu_time_ms +
      ({} : StatsCollection).io_wait_time_ms +
      ({} : StatsCollection).context_switches +
      ({} : StatsCollection).io_blocked_processes +
      ({} : StatsCollection).major_page_faults = 0 ∧
    ({} : StatsCollection).package_cpu_stats = [] ∧
    ({} : StatsCollection).package_storage_io_read_stats = [] ∧
    ({} : StatsCollection).package_storage_io_write_stats = [] :=
  (is_empty_characterization.1 {}).mp (by decide)

/-- Witness for C10 (amended): with no boot-time or last-n-minutes stats,
all three operations raise `AttributeError`. -/
theorem custom_stats_stored_as_list_witness :
    (({} : PerformanceStats).set_custom_collection_stats
        c10se).get_custom_collection_stats = .error .attributeError ∧
    (({} : PerformanceStats).set_custom_collection_stats c10se).to_dict =
      .error .attributeError ∧
    (({} : PerformanceStats).set_custom_collection_stats c10se).is_empty =
      .error .attributeError :=
  have h := custom_stats_stored_as_list c10se {} (by decide)
  ⟨h.1, h.2.1, h.2.2 (by decide) (by decide)⟩
